import Mathlib

/-
Verification of the EhRecommender recommendation engine against its
natural-language specification.

The development shallowly embeds the Python sources:
  src/recommender/tag_analyzer.py      (TagAnalyzer)
  src/recommender/uploader_analyzer.py (UploaderAnalyzer)
  src/recommender/content_scorer.py    (ContentScorer)
  src/recommender/feedback_learner.py  (FeedbackLearner)
  src/recommender/engine.py            (RecommendationEngine)
  src/models/database.py               (Database, the SQLite store)
  src/crawler/favorites.py             (FavoritesCrawler)

Modelling conventions:
  - Python floats are modelled as exact rationals where the code only
    performs field operations, and as real numbers where the code calls
    transcendental functions (np.exp, np.sqrt).  Float rounding is not
    modelled.
  - Python dicts are modelled as association lists; dict insertion order
    is not observable by any property proved here, so upserts place the
    updated binding at the end of the list.
  - datetimes are rationals counting days since an arbitrary epoch; the
    current wall-clock reading (datetime.now) is threaded as an explicit
    parameter named now.  timedelta.days is Int.floor of the difference.
  - external collaborators (the read-only EHDB content store of
    src/models/ehdb.py, the paginated HTTP favorites listing, and the
    sklearn TF-IDF vectorizer) are modelled as opaque function-valued
    parameters carried in the state, mirroring the spec treating them as
    collaborators behind narrow interfaces.
-/

/-- Association-list lookup, modelling Python dict read d.get(k). -/
def alookup {κ α : Type} [BEq κ] : List (κ × α) → κ → Option α
  | [], _ => none
  | p :: rest, k => if p.1 == k then some p.2 else alookup rest k

/-- Association-list upsert, modelling Python dict write d[k] = v and
SQLite INSERT OR REPLACE keyed on a primary key. -/
def upsert {κ α : Type} [BEq κ] (l : List (κ × α)) (k : κ) (v : α) : List (κ × α) :=
  l.filter (fun p => !(p.1 == k)) ++ [(k, v)]

/-- Number of occurrences of a tag in a list, modelling Counter counts. -/
def countTag (t : String) : List String → ℕ
  | [] => 0
  | s :: rest => (if s = t then 1 else 0) + countTag t rest

/-- The values of an association list (Python d.values()). -/
def vals (l : List (String × ℚ)) : List ℚ := l.map (fun p => p.2)

/-- Maximum of a nonempty list of rationals (Python builtin max). -/
def listMax : List ℚ → ℚ
  | [] => 0
  | x :: xs => xs.foldl max x

/-- Python idiom max(d.values()) if d else 1.0. -/
def maxOrOne : List ℚ → ℚ
  | [] => 1
  | x :: xs => listMax (x :: xs)

/-- A gallery record as resolved from the content store: gid, tags (already
parsed from their JSON encoding), uploader, rating, filecount, category and
posted time in days (none models a missing or unparsable timestamp). -/
structure Gallery where
  gid : ℤ
  tags : List String
  uploader : Option String
  rating : ℚ
  filecount : ℕ
  category : String
  posted : Option ℚ

/-- Concatenation of the tag lists of all favorites; the multiset that
tag_counter := Counter(); for g: tag_counter.update(g.tags) counts. -/
def allTags : List Gallery → List String
  | [] => []
  | g :: rest => g.tags ++ allTags rest

/-- TagAnalyzer.NAMESPACE_WEIGHTS (src/recommender/tag_analyzer.py lines 17-29). -/
def namespaceWeights : List (String × ℚ) :=
  [("female", 6/5), ("male", 6/5), ("parody", 1), ("character", 1),
   ("artist", 9/10), ("group", 9/10), ("language", 11/10), ("other", 4/5),
   ("mixed", 1), ("cosplayer", 7/10), ("reclass", 1/2)]

/-- namespace = tag.split(":", 1)[0] if ":" in tag else "other": the part of
the tag before the first colon. -/
def namespaceOf (t : String) : String :=
  if t.toList.contains (.ofNat 58) then
    String.mk (t.toList.takeWhile (fun c => !(c == .ofNat 58)))
  else "other"

/-- ns_weight = NAMESPACE_WEIGHTS.get(namespace, 1.0). -/
def nsWeightOf (t : String) : ℚ :=
  (alookup namespaceWeights (namespaceOf t)).getD 1

/-- The tag Counter over all favorites: distinct tags paired with their
occurrence counts (key order is not observable here). -/
def tagCounter (favs : List Gallery) : List (String × ℕ) :=
  (allTags favs).dedup.map (fun t => (t, countTag t (allTags favs)))

/-- The un-normalized base weights: for each tag,
tf = count / len(favorite_galleries), times the namespace weight
(tag_analyzer.py lines 93-104). -/
def baseWeightsRaw (favs : List Gallery) : List (String × ℚ) :=
  (tagCounter favs).map (fun p => (p.1, (p.2 : ℚ) / (favs.length : ℚ) * nsWeightOf p.1))

/-- TagAnalyzer._compute_feedback_multiplier (tag_analyzer.py lines 135-168):
start at 1.0, iterate the decayed positive and negative deltas, then clamp
to [0.0, 2.0]; (0, 0) returns 1.0 early. -/
def feedbackMultiplier (pos neg : ℕ) : ℚ :=
  if pos = 0 ∧ neg = 0 then 1
  else
    max 0 (min 2
      ((List.range neg).foldl (fun acc i => acc - 3/20 * (9/10 : ℚ) ^ (i + pos))
        ((List.range pos).foldl (fun acc i => acc + 1/10 * (9/10 : ℚ) ^ (i + neg)) 1)))

/-- The closed-form running value of the multiplier loop before clamping,
as the spec states it: 1 + sum of positive deltas minus sum of negative
deltas. -/
def mPre (pos neg : ℕ) : ℚ :=
  1 + (∑ i ∈ Finset.range pos, 1/10 * (9/10 : ℚ) ^ (i + neg))
    - ∑ i ∈ Finset.range neg, 3/20 * (9/10 : ℚ) ^ (i + pos)

/-- The feedback multiplier exactly as the specification words it (spec
section 4.1, "Feedback multiplier"): the clamped closed form.  Stated from
the spec for comparison with the code-derived feedbackMultiplier. -/
def specFeedbackMultiplier (pos neg : ℕ) : ℚ :=
  max 0 (min 2 (mPre pos neg))

/-- stats.get(tag, {}).get("positive_count", 0). -/
def statsPos (stats : List (String × ℕ × ℕ)) (t : String) : ℕ :=
  ((alookup stats t).getD (0, 0)).1

/-- stats.get(tag, {}).get("negative_count", 0). -/
def statsNeg (stats : List (String × ℕ × ℕ)) (t : String) : ℕ :=
  ((alookup stats t).getD (0, 0)).2

/-- Base weights normalized by their maximum (tag_analyzer.py lines 106-108;
note: no positivity guard in compute_tag_weights_from_favorites). -/
def baseWeightsNorm (favs : List Gallery) : List (String × ℚ) :=
  (baseWeightsRaw favs).map
    (fun p => (p.1, p.2 / maxOrOne (vals (baseWeightsRaw favs))))

/-- Normalized base weight times feedback multiplier per tag
(tag_analyzer.py lines 110-123). -/
def tagWeightsPre (favs : List Gallery) (stats : List (String × ℕ × ℕ)) :
    List (String × ℚ) :=
  (baseWeightsNorm favs).map
    (fun p => (p.1, p.2 * feedbackMultiplier (statsPos stats p.1) (statsNeg stats p.1)))

/-- TagAnalyzer.compute_tag_weights_from_favorites (lines 61-133): empty
favorites give an empty table; otherwise base weights are normalized,
multiplied by the feedback multipliers, and renormalized when the new
maximum is positive. -/
def computeTagWeightsFromFavorites (favs : List Gallery)
    (stats : List (String × ℕ × ℕ)) : List (String × ℚ) :=
  match favs with
  | [] => []
  | _ :: _ =>
    if 0 < maxOrOne (vals (tagWeightsPre favs stats)) then
      (tagWeightsPre favs stats).map
        (fun p => (p.1, p.2 / maxOrOne (vals (tagWeightsPre favs stats))))
    else tagWeightsPre favs stats

/-- TagAnalyzer._get_base_weights_for_sync (lines 170-214): pure base
weights, normalized only when the maximum is positive. -/
def getBaseWeightsForSync (favs : List Gallery) : List (String × ℚ) :=
  match favs with
  | [] => []
  | _ :: _ =>
    if 0 < maxOrOne (vals (baseWeightsRaw favs)) then
      (baseWeightsRaw favs).map
        (fun p => (p.1, p.2 / maxOrOne (vals (baseWeightsRaw favs))))
    else baseWeightsRaw favs

-- ==================== TagAnalyzer state and similarity ====================

/-- In-memory TagAnalyzer state: the user tag-weight table, and the fitted
TF-IDF vector profile.  The vectorizer, user vector and the
cosine_similarity call are external sklearn machinery, so the vector
profile is abstracted as an optional scoring function; applying it to a
candidate tag list returns some cosine value, or none when the transform
raises (the code then falls back to the jaccard-only value). -/
structure TagAnalyzerState where
  weights : List (String × ℚ)
  vec : Option (List String → Option ℝ)

/-- TagAnalyzer.compute_tag_similarity (tag_analyzer.py lines 255-301):
weighted-Jaccard score over the deduplicated candidate tags, blended
0.6/0.4 with the cosine score when the vector profile applies. -/
noncomputable def computeTagSimilarity (st : TagAnalyzerState)
    (candidateTags : List String) : ℝ :=
  match st.weights, candidateTags with
  | [], _ => 0
  | _ :: _, [] => 0
  | _ :: _, _ :: _ =>
    match candidateTags.dedup.filter (fun t => (alookup st.weights t).isSome) with
    | [] => 0
    | inter =>
      if (st.weights.map (fun p => p.2)).sum ≤ 0 then 0
      else
        let j : ℚ := min 1 ((inter.map (fun t => (alookup st.weights t).getD 0)).sum
          / (st.weights.map (fun p => p.2)).sum)
        match st.vec with
        | some f =>
          match f candidateTags with
          | some cos => 3/5 * (j : ℝ) + 2/5 * cos
          | none => (j : ℝ)
        | none => (j : ℝ)

/-- Insertion step of the stable descending sort by weight used below. -/
def insertPairDesc (x : String × ℚ) : List (String × ℚ) → List (String × ℚ)
  | [] => [x]
  | y :: ys => if y.2 ≤ x.2 then x :: y :: ys else y :: insertPairDesc x ys

/-- Python sorted(pairs, key = weight, reverse = True). -/
def sortPairsDesc : List (String × ℚ) → List (String × ℚ)
  | [] => []
  | x :: xs => insertPairDesc x (sortPairsDesc xs)

/-- TagAnalyzer.explain_similarity (lines 318-343): overlapping tags sorted
by descending user weight, first top_n of them. -/
def explainSimilarity (st : TagAnalyzerState) (candidateTags : List String)
    (topN : ℕ) : List String :=
  ((sortPairsDesc
      ((candidateTags.dedup.filter (fun t => (alookup st.weights t).isSome)).map
        (fun t => (t, (alookup st.weights t).getD 0)))).map
    (fun p => p.1)).take topN

/-- TagAnalyzer.build_user_profile (lines 216-253): recompute the weight
table, then fit the vector profile on the per-favorite tag documents.  The
fit argument abstracts TfidfVectorizer().fit_transform plus the mean user
vector; it returns none when fitting fails (the code then keeps no usable
vector profile).  An empty document list returns before fitting. -/
def buildUserProfile (st : TagAnalyzerState) (favs : List Gallery)
    (stats : List (String × ℕ × ℕ))
    (fit : List (List String) → Option (List String → Option ℝ)) :
    TagAnalyzerState :=
  match favs.map Gallery.tags with
  | [] => { weights := computeTagWeightsFromFavorites favs stats, vec := st.vec }
  | d :: ds => { weights := computeTagWeightsFromFavorites favs stats,
                 vec := fit (d :: ds) }

-- ==================== UploaderAnalyzer ====================

/-- In-memory UploaderAnalyzer state: uploader weight and count tables. -/
structure UploaderState where
  weights : List (String × ℚ)
  counts : List (String × ℕ)

/-- UploaderAnalyzer.build_uploader_profile (uploader_analyzer.py lines
17-60): count uploaders with non-blank names, upsert their frequency
weights (boosted at counts of 3 and 5) into the existing table, then
normalize the whole table by its maximum. -/
def buildUploaderProfile (st : UploaderState) (favs : List Gallery) :
    UploaderState :=
  match favs with
  | [] => st
  | _ :: _ =>
    let ups := favs.filterMap (fun g =>
      match g.uploader with
      | some u => if u.trim = "" then none else some u
      | none => none)
    let counter := ups.dedup.map (fun u => (u, countTag u ups))
    let ws := counter.foldl (fun acc p =>
      upsert acc p.1
        (if 5 ≤ p.2 then (p.2 : ℚ) / (favs.length : ℚ) * (3/2)
         else if 3 ≤ p.2 then (p.2 : ℚ) / (favs.length : ℚ) * (6/5)
         else (p.2 : ℚ) / (favs.length : ℚ))) st.weights
    { weights := ws.map (fun p => (p.1, p.2 / maxOrOne (vals ws))),
      counts := counter.foldl (fun acc p => upsert acc p.1 p.2) st.counts }

/-- UploaderAnalyzer.compute_uploader_score (lines 62-80): empty name or
empty table scores 0; a known uploader scores its weight; an unknown one
scores the fixed 0.1. -/
def computeUploaderScore (st : UploaderState) (name : String) : ℚ :=
  if name = "" then 0
  else
    match st.weights with
    | [] => 0
    | _ :: _ =>
      match alookup st.weights name with
      | some w => w
      | none => 1/10

-- ==================== ContentScorer ====================

/-- ContentScorer state (content_scorer.py __init__ and
build_quality_profile). -/
structure ContentScorerState where
  avgRating : ℝ
  ratingStd : ℝ
  avgFilecount : ℤ
  filecountLo : ℚ
  filecountHi : ℚ
  preferredLanguages : List (String × ℚ)
  preferredCategories : List (String × ℚ)

/-- Ascending insertion sort on rationals (for np.percentile). -/
def insertQAsc (x : ℚ) : List ℚ → List ℚ
  | [] => [x]
  | y :: ys => if x ≤ y then x :: y :: ys else y :: insertQAsc x ys

/-- Ascending sort on rationals. -/
def sortQAsc : List ℚ → List ℚ
  | [] => []
  | x :: xs => insertQAsc x (sortQAsc xs)

/-- np.percentile with the default linear interpolation: index
h = (n - 1) * p / 100 into the sorted data, interpolating between the
neighbouring order statistics. -/
def percentileQ (xs : List ℚ) (p : ℚ) : ℚ :=
  match sortQAsc xs with
  | [] => 0
  | y :: ys =>
    let s := y :: ys
    let h : ℚ := ((s.length - 1 : ℕ) : ℚ) * p / 100
    let k : ℕ := (Int.floor h).toNat
    let lo := s.getD k y
    let hi := s.getD (k + 1) lo
    lo + (h - (k : ℚ)) * (hi - lo)

/-- ContentScorer.build_quality_profile (content_scorer.py lines 26-80):
mean and population std of ratings (std defaults to 0.5 with a single
favorite), truncated mean and 10th/90th percentiles of filecounts,
normalized language-tag distribution (kept unchanged when no language tags
occur), and normalized category distribution over non-empty categories.
int() truncation is Int.floor, exact on these non-negative values. -/
noncomputable def buildQualityProfile (st : ContentScorerState)
    (favs : List Gallery) : ContentScorerState :=
  match favs with
  | [] => st
  | _ :: _ =>
    let n : ℕ := favs.length
    let ratings := favs.map Gallery.rating
    let avg : ℚ := ratings.sum / (n : ℚ)
    let fcs := favs.map (fun g => (g.filecount : ℚ))
    let langTags := (allTags favs).filter
      (fun t => t.startsWith "language:" || t.startsWith "lang:")
    let cats0 := favs.map Gallery.category
    let catCounter := cats0.dedup.map (fun c => (c, countTag c cats0))
    { avgRating := (avg : ℝ),
      ratingStd :=
        if 1 < ratings.length then
          Real.sqrt (((ratings.map (fun x => (x - avg) ^ 2)).sum / (n : ℚ) : ℚ) : ℝ)
        else 1/2,
      avgFilecount := Int.floor (fcs.sum / (n : ℚ)),
      filecountLo := ((Int.floor (percentileQ fcs 10) : ℤ) : ℚ),
      filecountHi := ((Int.floor (percentileQ fcs 90) : ℤ) : ℚ),
      preferredLanguages :=
        if 0 < langTags.length then
          (langTags.dedup.map (fun t => (t, countTag t langTags))).map
            (fun p => (p.1, (p.2 : ℚ) / (langTags.length : ℚ)))
        else st.preferredLanguages,
      preferredCategories :=
        (catCounter.filter (fun p => !(p.1 == ""))).map
          (fun p => (p.1, (p.2 : ℚ) / (n : ℚ))) }

/-- ContentScorer.compute_quality_score (lines 82-115): Gaussian rating
kernel when a rating profile exists, otherwise rating / 5; combined by
arithmetic mean with the filecount band score (1.0 inside [p10, p90], 0.7
below, 0.8 above).  The scores list always has the two entries, so the
empty-mean fallback of the code is unreachable. -/
noncomputable def computeQualityScore (st : ContentScorerState) (g : Gallery) : ℝ :=
  ((if 0 < st.avgRating then
      Real.exp (-(((g.rating : ℝ) - st.avgRating) ^ 2) / (2 * st.ratingStd ^ 2))
    else (g.rating : ℝ) / 5)
   + ((if st.filecountLo ≤ (g.filecount : ℚ) ∧ (g.filecount : ℚ) ≤ st.filecountHi then (1 : ℚ)
       else if (g.filecount : ℚ) < st.filecountLo then 7/10
       else 4/5) : ℝ)) / 2

/-- ContentScorer.compute_content_score (lines 117-150): best matching
preferred-language weight (0.5 when none matches), and the preferred
category weight with default 0.3; their arithmetic mean. -/
def computeContentScore (st : ContentScorerState) (g : Gallery) : ℚ :=
  ((if 0 < g.tags.foldl (fun m t =>
        match alookup st.preferredLanguages t with
        | some w => max m w
        | none => m) 0 then
      g.tags.foldl (fun m t =>
        match alookup st.preferredLanguages t with
        | some w => max m w
        | none => m) 0
    else 1/2)
   + (alookup st.preferredCategories g.category).getD (3/10)) / 2

/-- ContentScorer.compute_recency_score (lines 152-185): 0.5 for a missing
or unparsable posted time, 1.0 for future-posted items, otherwise
exp(-0.002 * days_diff) clamped to [0.2, 1.0].  days_diff is
timedelta.days, the floor of the day difference. -/
noncomputable def computeRecencyScore (g : Gallery) (now : ℚ) : ℝ :=
  match g.posted with
  | none => 1/2
  | some p =>
    if Int.floor (now - p) < 0 then 1
    else max (1/5) (min 1 (Real.exp (-(1/500) * ((Int.floor (now - p) : ℤ) : ℝ))))

-- ==================== Database (src/models/database.py) ====================

/-- The local SQLite store: favorites (gid, token), feedback
(gid, rating, source), recommendation history (gid, recommended_time) and
user tag preferences (tag, weight, positive_count, negative_count).
Write-only timestamp columns that no code path reads back (added_time,
last_sync, feedback_time, updated_time, the reason/score/notified columns
of recommendation_history) are omitted. -/
structure DB where
  favorites : List (ℤ × String)
  feedback : List (ℤ × ℤ × String)
  history : List (ℤ × ℚ)
  prefs : List (String × ℚ × ℕ × ℕ)

/-- Database.is_favorited. -/
def isFavorited (db : DB) (gid : ℤ) : Bool :=
  db.favorites.any (fun p => p.1 == gid)

/-- Database.get_feedback: the rating of the feedback row for gid, if any. -/
def getFeedback (db : DB) (gid : ℤ) : Option ℤ :=
  (alookup db.feedback gid).map (fun v => v.1)

/-- Database.add_feedback: INSERT OR REPLACE keyed on gid. -/
def addFeedback (db : DB) (gid rating : ℤ) (source : String) : DB :=
  { db with feedback := upsert db.feedback gid (rating, source) }

/-- Database.is_recommended (database.py lines 228-254): with an expiry
window, is there a history row for gid with recommended_time strictly
after now - expiry_days; without one, is there any history row for gid. -/
def isRecommended (db : DB) (gid : ℤ) (expiryDays : Option ℤ) (now : ℚ) : Bool :=
  match expiryDays with
  | some w => db.history.any (fun p => p.1 == gid && decide (now - (w : ℚ) < p.2))
  | none => db.history.any (fun p => p.1 == gid)

/-- Database.get_tag_preference. -/
def getTagPreference (db : DB) (tag : String) : Option (ℚ × ℕ × ℕ) :=
  alookup db.prefs tag

/-- Database.update_tag_preference: INSERT OR REPLACE keyed on tag. -/
def updateTagPreference (db : DB) (tag : String) (w : ℚ) (pos neg : ℕ) : DB :=
  { db with prefs := upsert db.prefs tag (w, pos, neg) }

/-- Database.get_all_tag_feedback_stats. -/
def getAllTagFeedbackStats (db : DB) : List (String × ℕ × ℕ) :=
  db.prefs.map (fun p => (p.1, p.2.2.1, p.2.2.2))

/-- One iteration of Database.sync_tag_preferences (database.py lines
373-399): a tag with any feedback count keeps its row; otherwise its base
weight is upserted, preserving the existing counts. -/
def syncStep (d : DB) (p : String × ℚ) : DB :=
  match getTagPreference d p.1 with
  | some (_, pos, neg) =>
    if 0 < pos ∨ 0 < neg then d else updateTagPreference d p.1 p.2 pos neg
  | none => updateTagPreference d p.1 p.2 0 0

/-- Database.sync_tag_preferences (lines 361-401): no-op on an empty
weight table, otherwise fold syncStep over the entries. -/
def syncTagPreferences (d : DB) (weights : List (String × ℚ)) : DB :=
  match weights with
  | [] => d
  | _ :: _ => weights.foldl syncStep d

-- ==================== FeedbackLearner ====================

/-- FeedbackLearner._update_tag_weight (feedback_learner.py lines 61-96):
bump the positive or negative count of the tag, keeping the stored base
weight (1.0 for a previously unseen tag). -/
def updateTagWeightStep (db : DB) (tag : String) (isPositive : Bool) : DB :=
  match getTagPreference db tag with
  | some (w, pos, neg) =>
    if isPositive then updateTagPreference db tag w (pos + 1) neg
    else updateTagPreference db tag w pos (neg + 1)
  | none =>
    if isPositive then updateTagPreference db tag 1 1 0
    else updateTagPreference db tag 1 0 1

/-- FeedbackLearner.learn_from_feedback (lines 26-59): update every tag of
the gallery; the uploader branch only logs, so it does not change state.
The gid argument is only logged. -/
def learnFromFeedback (db : DB) (gid rating : ℤ) (g : Gallery) : DB :=
  g.tags.foldl (fun d t => updateTagWeightStep d t (decide (0 < rating))) db

-- ==================== RecommendationEngine ====================

/-- Engine configuration (engine.py __init__, lines 36-45 plus the
recommendation_expiry_days lookup of line 253). -/
structure Config where
  tagWeight : ℝ
  uploaderWeight : ℝ
  qualityWeight : ℝ
  contentWeight : ℝ
  recencyWeight : ℝ
  minScoreThreshold : ℝ
  immediatePushThreshold : ℝ
  recommendationExpiryDays : Option ℤ

/-- The read-only EHDB content store (src/models/ehdb.py), abstracted as
its query interface; its PostgreSQL contents are external data. -/
structure EhDb where
  getGallery : ℤ → Option Gallery
  getGalleriesByIds : List ℤ → List Gallery
  getNewGalleries : ℤ → ℕ → List Gallery
  getRandomGalleries : ℕ → ℚ → List Gallery
  searchSimilarGalleries : List String → Option String → ℕ → List Gallery

/-- The recommendation engine state: both databases, the configuration,
the three analyzer states, the abstract TF-IDF fitting collaborator, and
the _is_initialized flag (profileReady).  The FeedbackLearner holds no
state of its own beyond the database. -/
structure Engine where
  db : DB
  ehdb : EhDb
  config : Config
  tagA : TagAnalyzerState
  upA : UploaderState
  cs : ContentScorerState
  fitTfidf : List (List String) → Option (List String → Option ℝ)
  profileReady : Bool

/-- RecommendationEngine.initialize (engine.py lines 49-85): with no
favorites, or favorites unresolvable in the content store, only the flag
is set; otherwise all three analyzer profiles are rebuilt and the pure
base weights are synced to the database. -/
noncomputable def Engine.rebuildProfile (e : Engine) : Engine :=
  match e.db.favorites.map (fun p => p.1) with
  | [] => { e with profileReady := true }
  | gid :: gids =>
    match e.ehdb.getGalleriesByIds (gid :: gids) with
    | [] => { e with profileReady := true }
    | g :: gs =>
      { e with
        tagA := buildUserProfile e.tagA (g :: gs) (getAllTagFeedbackStats e.db) e.fitTfidf,
        upA := buildUploaderProfile e.upA (g :: gs),
        cs := buildQualityProfile e.cs (g :: gs),
        db := syncTagPreferences e.db (getBaseWeightsForSync (g :: gs)),
        profileReady := true }

/-- Detail breakdown returned with each score (engine.py lines 136-144). -/
structure ScoreDetails where
  tagScore : ℝ
  uploaderScore : ℝ
  qualityScore : ℝ
  contentScore : ℝ
  recencyScore : ℝ
  totalScore : ℝ
  matchedTags : List String

/-- Python round(x, 3).  (The half-even tie behaviour of float round is a
float artifact; ties are not hit by anything proved here.) -/
noncomputable def round3 (x : ℝ) : ℝ := ((round (1000 * x) : ℤ) : ℝ) / 1000

/-- The pure body of RecommendationEngine.compute_recommendation_score
(engine.py lines 102-146), for an engine whose profile is already built:
the five component scores, their weighted total, and the rounded detail
breakdown. -/
noncomputable def Engine.scoreCore (e : Engine) (g : Gallery) (now : ℚ) :
    ℝ × ScoreDetails :=
  (computeTagSimilarity e.tagA g.tags * e.config.tagWeight
     + (computeUploaderScore e.upA (g.uploader.getD "") : ℝ) * e.config.uploaderWeight
     + computeQualityScore e.cs g * e.config.qualityWeight
     + (computeContentScore e.cs g : ℝ) * e.config.contentWeight
     + computeRecencyScore g now * e.config.recencyWeight,
   { tagScore := round3 (computeTagSimilarity e.tagA g.tags),
     uploaderScore := round3 ((computeUploaderScore e.upA (g.uploader.getD "") : ℝ)),
     qualityScore := round3 (computeQualityScore e.cs g),
     contentScore := round3 ((computeContentScore e.cs g : ℝ)),
     recencyScore := round3 (computeRecencyScore g now),
     totalScore := round3 (computeTagSimilarity e.tagA g.tags * e.config.tagWeight
       + (computeUploaderScore e.upA (g.uploader.getD "") : ℝ) * e.config.uploaderWeight
       + computeQualityScore e.cs g * e.config.qualityWeight
       + (computeContentScore e.cs g : ℝ) * e.config.contentWeight
       + computeRecencyScore g now * e.config.recencyWeight),
     matchedTags := explainSimilarity e.tagA g.tags 5 })

/-- RecommendationEngine.compute_recommendation_score (lines 87-146)
including its stateful prelude: if the profile is not built yet,
initialize runs first and its mutation is returned alongside the result. -/
noncomputable def Engine.computeRecommendationScore (e : Engine) (g : Gallery)
    (now : ℚ) : Engine × ℝ × ScoreDetails :=
  ((if e.profileReady then e else e.rebuildProfile),
   (if e.profileReady then e else e.rebuildProfile).scoreCore g now)

/-- One entry of the recommendation list (engine.py lines 265-272). -/
structure Recommendation where
  gallery : Gallery
  score : ℝ
  details : ScoreDetails
  source : String

/-- The filtering and scoring loop of
RecommendationEngine._filter_and_score_galleries (engine.py lines
244-272): skip favorited galleries, galleries with feedback, galleries
still inside the recommendation expiry window (unless the source is
"manual"), and galleries scoring below the threshold.  The score is
computed once per surviving gallery in the code; the repeated scoreCore
applications here denote that single value. -/
noncomputable def filterLoop (e : Engine) (now : ℚ) (src : String) :
    List Gallery → List Recommendation
  | [] => []
  | g :: rest =>
    if isFavorited e.db g.gid then filterLoop e now src rest
    else if (getFeedback e.db g.gid).isSome then filterLoop e now src rest
    else if src ≠ "manual" ∧
        isRecommended e.db g.gid e.config.recommendationExpiryDays now = true then
      filterLoop e now src rest
    else if (e.scoreCore g now).1 < e.config.minScoreThreshold then
      filterLoop e now src rest
    else
      { gallery := g, score := (e.scoreCore g now).1,
        details := (e.scoreCore g now).2, source := src } :: filterLoop e now src rest

/-- Insertion step of the stable descending sort by score. -/
noncomputable def insertRecDesc (r : Recommendation) :
    List Recommendation → List Recommendation
  | [] => [r]
  | x :: xs => if x.score ≤ r.score then r :: x :: xs else x :: insertRecDesc r xs

/-- recommendations.sort(key = score, reverse = True): stable descending
sort. -/
noncomputable def sortRecsDesc : List Recommendation → List Recommendation
  | [] => []
  | x :: xs => insertRecDesc x (sortRecsDesc xs)

/-- RecommendationEngine._filter_and_score_galleries (lines 229-291).  The
lazy initialize of the first compute_recommendation_score call is hoisted
in front of the loop: initialize never changes favorites, feedback or
history (only prefs and the analyzer profiles), so every filter decision
and every score is unchanged by the hoisting, and the list returned is the
same.  The engine mutation is not part of the return value, as in the
code. -/
noncomputable def Engine.filterAndScoreGalleries (e : Engine) (now : ℚ)
    (galleries : List Gallery) (source : String) : List Recommendation :=
  sortRecsDesc (filterLoop (if e.profileReady then e else e.rebuildProfile)
    now source galleries)

/-- The engine actually used inside filterAndScoreGalleries. -/
noncomputable def readyEngine (e : Engine) : Engine :=
  if e.profileReady then e else e.rebuildProfile

/-- RecommendationEngine.recommend_new_galleries (lines 148-168). -/
noncomputable def Engine.recommendNewGalleries (e : Engine) (now : ℚ)
    (sinceTimestamp : ℤ) (limit : ℕ) : List Recommendation :=
  e.filterAndScoreGalleries now (e.ehdb.getNewGalleries sinceTimestamp limit) "new"

/-- RecommendationEngine.recommend_from_pool (lines 170-188). -/
noncomputable def Engine.recommendFromPool (e : Engine) (now : ℚ)
    (count : ℕ) (minRating : ℚ) : List Recommendation :=
  e.filterAndScoreGalleries now (e.ehdb.getRandomGalleries count minRating) "old"

/-- RecommendationEngine.recommend_similar (lines 190-227): resolve the
seed gallery (empty list when missing), search candidates sharing its tags
or uploader, drop the seed itself, filter and score with source "manual",
and keep the first limit entries. -/
noncomputable def Engine.recommendSimilar (e : Engine) (now : ℚ) (gid : ℤ)
    (limit : ℕ) : List Recommendation :=
  match e.ehdb.getGallery gid with
  | none => []
  | some base =>
    (e.filterAndScoreGalleries now
      ((e.ehdb.searchSimilarGalleries base.tags base.uploader (limit * 3)).filter
        (fun g => !(g.gid == gid))) "manual").take limit

/-- RecommendationEngine.handle_feedback (engine.py lines 293-317): persist
the feedback; if the gallery is unresolvable, log and return; otherwise
run the learner and rebuild the whole profile. -/
noncomputable def Engine.handleFeedback (e : Engine) (gid rating : ℤ)
    (source : String) : Engine :=
  match e.ehdb.getGallery gid with
  | none => { e with db := addFeedback e.db gid rating source }
  | some gallery =>
    Engine.rebuildProfile
      { e with db :=
          (learnFromFeedback (addFeedback e.db gid rating source) gid rating gallery) }

-- ==================== FavoritesCrawler ====================

/-- One parsed favorites page as fetch_favorites_page returns it: the
deduplicated (gid, token, favtime) items and the next-page token.  The
HTTP fetching, retrying and regex extraction behind it operate on external
network data and are modelled by the page function itself. -/
structure FavPage where
  items : List (ℤ × String × ℚ)
  next : Option String

/-- The page-walking loop of FavoritesCrawler.fetch_new_favorites
(favorites.py lines 210-260), with the remaining page budget as fuel and
the pair returning the accumulated new items together with the number of
pages fetched: stop on an empty page, on a page contributing no unknown
gids, or on a missing next token. -/
def fetchNewLoop (pages : String → FavPage) (knownGids : List ℤ) :
    ℕ → String → List (ℤ × String × ℚ) × ℕ
  | 0, _ => ([], 0)
  | Nat.succ fuel, tok =>
    match (pages tok).items with
    | [] => ([], 1)
    | _ :: _ =>
      match (pages tok).items.filter (fun it => !(knownGids.contains it.1)) with
      | [] => ([], 1)
      | i :: is =>
        match (pages tok).next with
        | none => (i :: is, 1)
        | some t =>
          ((i :: is) ++ (fetchNewLoop pages knownGids fuel t).1,
           (fetchNewLoop pages knownGids fuel t).2 + 1)

/-- FavoritesCrawler.fetch_new_favorites: walk from the first page with a
budget of max_pages pages. -/
def fetchNewFavorites (pages : String → FavPage) (knownGids : List ℤ)
    (maxPages : ℕ) : List (ℤ × String × ℚ) × ℕ :=
  fetchNewLoop pages knownGids maxPages ""


/-- An engine with its recommendation history replaced, used to state that
manual queries never consult the history. -/
def withHistoryE (e : Engine) (h : List (ℤ × ℚ)) : Engine :=
  { e with db := { e.db with history := h } }

-- ==================== concrete test fixtures ====================

/-- An empty local database. -/
def dbEmpty : DB := ⟨[], [], [], []⟩

/-- A content store that resolves nothing. -/
def ehdb0 : EhDb := ⟨fun _ => none, fun _ => [], fun _ _ => [], fun _ _ => [],
  fun _ _ _ => []⟩

/-- The default engine configuration (engine.py lines 37-45) with no
recommendation expiry window configured. -/
noncomputable def cfg0 : Config := ⟨2/5, 1/5, 1/5, 3/20, 1/20, 7/10, 17/20, none⟩

/-- The same configuration with a 7-day expiry window. -/
noncomputable def cfg7 : Config := ⟨2/5, 1/5, 1/5, 3/20, 1/20, 7/10, 17/20, some 7⟩

/-- A fresh TagAnalyzer state. -/
def emptyTagA : TagAnalyzerState := ⟨[], none⟩

/-- A fresh UploaderAnalyzer state. -/
def emptyUpA : UploaderState := ⟨[], []⟩

/-- The ContentScorer state as constructed by __init__. -/
noncomputable def defaultCS : ContentScorerState := ⟨0, 0, 0, 0, 10000, [], []⟩

/-- A database where gallery 7 is favorited and gallery 8 has feedback. -/
def dbW1 : DB := ⟨[(7, "t1")], [(8, 1, "new")], [], []⟩

/-- Engine over dbW1 whose pool and new-gallery queries offer exactly the
favorited gallery 7. -/
noncomputable def eW1 : Engine :=
  ⟨dbW1,
   { ehdb0 with
      getNewGalleries := fun _ _ => [⟨7, [], none, 0, 0, "", none⟩],
      getRandomGalleries := fun _ _ => [⟨7, [], none, 0, 0, "", none⟩] },
   cfg0, emptyTagA, emptyUpA, defaultCS, fun _ => none, true⟩

/-- Engine with an empty store: every gallery is unresolvable, and the
profile has never been built. -/
noncomputable def eC2 : Engine :=
  ⟨dbEmpty, ehdb0, cfg0, emptyTagA, emptyUpA, defaultCS, fun _ => none, false⟩

/-- A favorite with no tags at all. -/
def gEmpty : Gallery := ⟨1, [], none, 0, 0, "", none⟩

/-- The favorite of the spec scenario: tags female:elf and
language:japanese, rating 4.5, filecount 20. -/
def g6 : Gallery := ⟨1, ["female:elf", "language:japanese"], none, 9/2, 20, "", none⟩

/-- A candidate gallery with gid 3. -/
def g3 : Gallery := ⟨3, [], none, 0, 0, "", none⟩

/-- A database whose history says gallery 3 was recommended at time 0. -/
def dbW7 : DB := ⟨[], [], [(3, 0)], []⟩

/-- Engine over dbW7 with the 7-day expiry window, offering gallery 3 as a
candidate. -/
noncomputable def eW7 : Engine :=
  ⟨dbW7,
   { ehdb0 with
      getNewGalleries := fun _ _ => [g3],
      getRandomGalleries := fun _ _ => [g3] },
   cfg7, emptyTagA, emptyUpA, defaultCS, fun _ => none, true⟩

/-- The same engine with no expiry window configured. -/
noncomputable def eW10 : Engine :=
  ⟨dbW7,
   { ehdb0 with
      getNewGalleries := fun _ _ => [g3],
      getRandomGalleries := fun _ _ => [g3] },
   cfg0, emptyTagA, emptyUpA, defaultCS, fun _ => none, true⟩

/-- A gallery posted at day 100, otherwise featureless. -/
def gC8 : Gallery := ⟨1, [], none, 0, 0, "", some 100⟩

/-- A ready engine with empty profiles, used to evaluate scoreCore. -/
noncomputable def eC8 : Engine :=
  ⟨dbEmpty, ehdb0, cfg0, emptyTagA, emptyUpA, defaultCS, fun _ => none, true⟩

/-- A one-page favorites listing containing only gallery 5. -/
def pagesW : String → FavPage := fun _ => ⟨[(5, "tok", 0)], none⟩

-- (further definitions are appended above this line; all theorems below)

-- ==================== helper lemmas ====================

theorem alookup_upsert_same {κ α : Type} [BEq κ] [LawfulBEq κ]
    (l : List (κ × α)) (k : κ) (v : α) : alookup (upsert l k v) k = some v := by
  induction l with
  | nil => simp [upsert, alookup]
  | cons p rest ih =>
    by_cases h : p.1 == k
    · simpa [upsert, List.filter_cons, h] using ih
    · simpa [upsert, List.filter_cons, h, alookup] using ih

theorem countTag_pos_of_mem {t : String} {l : List String} (h : t ∈ l) :
    0 < countTag t l := by
  induction l with
  | nil => cases h
  | cons s rest ih =>
    rcases List.mem_cons.mp h with h1 | h2
    · simp [countTag, h1]
    · have := ih h2
      simp [countTag]
      omega

theorem mem_allTags_of_mem {g : Gallery} {favs : List Gallery} {t : String}
    (hg : g ∈ favs) (ht : t ∈ g.tags) : t ∈ allTags favs := by
  induction favs with
  | nil => cases hg
  | cons f rest ih =>
    rcases List.mem_cons.mp hg with h1 | h2
    · subst h1; exact List.mem_append.mpr (Or.inl ht)
    · exact List.mem_append.mpr (Or.inr (ih h2))

theorem le_foldl_max_init (l : List ℚ) (a : ℚ) : a ≤ l.foldl max a := by
  induction l generalizing a with
  | nil => exact le_refl a
  | cons y ys ih => exact le_trans (le_max_left a y) (ih (max a y))

theorem le_foldl_max_of_mem {l : List ℚ} {x : ℚ} (h : x ∈ l) (a : ℚ) :
    x ≤ l.foldl max a := by
  induction l generalizing a with
  | nil => cases h
  | cons y ys ih =>
    rcases List.mem_cons.mp h with h1 | h1
    · subst h1
      exact le_trans (le_max_right a x) (le_foldl_max_init ys (max a x))
    · exact ih h1 (max a y)

theorem foldl_max_mem (l : List ℚ) (a : ℚ) :
    l.foldl max a = a ∨ l.foldl max a ∈ l := by
  induction l generalizing a with
  | nil => exact Or.inl rfl
  | cons y ys ih =>
    have hstep : (y :: ys).foldl max a = ys.foldl max (max a y) := rfl
    rw [hstep]
    rcases ih (max a y) with h | h
    · rcases max_choice a y with h1 | h1
      · exact Or.inl (by rw [h, h1])
      · refine Or.inr ?_
        rw [h, h1]
        exact List.mem_cons_self y ys
    · exact Or.inr (List.mem_cons_of_mem y h)

theorem listMax_mem {l : List ℚ} (h : l ≠ []) : listMax l ∈ l := by
  match l with
  | [] => exact absurd rfl h
  | x :: xs =>
    rcases foldl_max_mem xs x with h1 | h1
    · simp [listMax, h1]
    · simp [listMax]; right; exact h1

theorem le_listMax {l : List ℚ} {x : ℚ} (h : x ∈ l) : x ≤ listMax l := by
  match l with
  | [] => cases h
  | y :: ys =>
    rcases List.mem_cons.mp h with h1 | h1
    · subst h1; exact le_foldl_max_init ys x
    · exact le_foldl_max_of_mem h1 y

theorem foldl_max_div {M : ℚ} (hM : 0 < M) (l : List ℚ) (a : ℚ) :
    (l.map (fun v => v / M)).foldl max (a / M) = (l.foldl max a) / M := by
  induction l generalizing a with
  | nil => simp
  | cons y ys ih =>
    have hmax : max (a / M) (y / M) = max a y / M := by
      rcases le_total a y with h | h
      · rw [max_eq_right h, max_eq_right ((div_le_div_iff_of_pos_right hM).mpr h)]
      · rw [max_eq_left h, max_eq_left ((div_le_div_iff_of_pos_right hM).mpr h)]
    simp only [List.map_cons, List.foldl_cons, hmax]
    exact ih (max a y)

theorem listMax_map_div {M : ℚ} (hM : 0 < M) (l : List ℚ) :
    listMax (l.map (fun v => v / M)) = listMax l / M := by
  match l with
  | [] => simp [listMax]
  | x :: xs => simp only [List.map_cons, listMax]; exact foldl_max_div hM xs x

theorem foldl_range_add (f : ℕ → ℚ) :
    ∀ (k : ℕ) (a : ℚ),
      (List.range k).foldl (fun acc i => acc + f i) a = a + ∑ i ∈ Finset.range k, f i := by
  intro k
  induction k with
  | zero => intro a; simp
  | succ n ih =>
    intro a
    rw [List.range_succ, List.foldl_append, ih a, Finset.sum_range_succ]
    simp [add_assoc]

theorem foldl_range_sub (f : ℕ → ℚ) :
    ∀ (k : ℕ) (a : ℚ),
      (List.range k).foldl (fun acc i => acc - f i) a = a - ∑ i ∈ Finset.range k, f i := by
  intro k
  induction k with
  | zero => intro a; simp
  | succ n ih =>
    intro a
    rw [List.range_succ, List.foldl_append, ih a, Finset.sum_range_succ]
    simp
    ring

theorem feedbackMultiplier_eq_spec (pos neg : ℕ) :
    feedbackMultiplier pos neg = specFeedbackMultiplier pos neg := by
  unfold feedbackMultiplier specFeedbackMultiplier mPre
  by_cases h : pos = 0 ∧ neg = 0
  · obtain ⟨h1, h2⟩ := h
    subst h1; subst h2
    norm_num
  · rw [if_neg h,
      foldl_range_add (fun i => 1/10 * (9/10 : ℚ) ^ (i + neg)) pos 1,
      foldl_range_sub (fun i => 3/20 * (9/10 : ℚ) ^ (i + pos)) neg
        (1 + ∑ i ∈ Finset.range pos, 1/10 * (9/10 : ℚ) ^ (i + neg))]

theorem clamp_mono {a b : ℚ} (h : a ≤ b) :
    max 0 (min 2 a) ≤ max 0 (min 2 b) :=
  max_le_max (le_refl 0) (min_le_min (le_refl 2) h)

theorem mPre_succ_pos (pos neg : ℕ) : mPre pos neg ≤ mPre (pos + 1) neg := by
  unfold mPre
  have hsum : ∑ i ∈ Finset.range neg, 3/20 * (9/10 : ℚ) ^ (i + (pos + 1))
      ≤ ∑ i ∈ Finset.range neg, 3/20 * (9/10 : ℚ) ^ (i + pos) := by
    refine Finset.sum_le_sum ?_
    intro i _
    have hpow : ((9 : ℚ)/10) ^ (i + (pos + 1)) ≤ (9/10) ^ (i + pos) :=
      pow_le_pow_of_le_one (by norm_num) (by norm_num) (by omega)
    nlinarith
  have hterm : (0 : ℚ) ≤ 1/10 * (9/10 : ℚ) ^ (pos + neg) := by positivity
  rw [Finset.sum_range_succ]
  linarith

theorem mPre_succ_neg (pos neg : ℕ) : mPre pos (neg + 1) ≤ mPre pos neg := by
  unfold mPre
  have hsum : ∑ i ∈ Finset.range pos, 1/10 * (9/10 : ℚ) ^ (i + (neg + 1))
      ≤ ∑ i ∈ Finset.range pos, 1/10 * (9/10 : ℚ) ^ (i + neg) := by
    refine Finset.sum_le_sum ?_
    intro i _
    have hpow : ((9 : ℚ)/10) ^ (i + (neg + 1)) ≤ (9/10) ^ (i + neg) :=
      pow_le_pow_of_le_one (by norm_num) (by norm_num) (by omega)
    nlinarith
  have hterm : (0 : ℚ) ≤ 3/20 * (9/10 : ℚ) ^ (neg + pos) := by positivity
  rw [Finset.sum_range_succ]
  linarith

theorem mPre_mono_pos {p q : ℕ} (n : ℕ) (h : p ≤ q) : mPre p n ≤ mPre q n := by
  induction q with
  | zero =>
    have : p = 0 := Nat.le_zero.mp h
    subst this
    exact le_refl _
  | succ k ih =>
    rcases Nat.lt_or_ge p (k + 1) with h1 | h1
    · exact le_trans (ih (Nat.lt_succ_iff.mp h1)) (mPre_succ_pos k n)
    · have : p = k + 1 := le_antisymm h h1
      subst this
      exact le_refl _

theorem mPre_anti_neg (p : ℕ) {n m : ℕ} (h : n ≤ m) : mPre p m ≤ mPre p n := by
  induction m with
  | zero =>
    have : n = 0 := Nat.le_zero.mp h
    subst this
    exact le_refl _
  | succ k ih =>
    rcases Nat.lt_or_ge n (k + 1) with h1 | h1
    · exact le_trans (mPre_succ_neg p k) (ih (Nat.lt_succ_iff.mp h1))
    · have : n = k + 1 := le_antisymm h h1
      subst this
      exact le_refl _

theorem feedbackMultiplier_nonneg (pos neg : ℕ) : 0 ≤ feedbackMultiplier pos neg := by
  rw [feedbackMultiplier_eq_spec]
  exact le_max_left 0 _

theorem feedbackMultiplier_le_two (pos neg : ℕ) : feedbackMultiplier pos neg ≤ 2 := by
  rw [feedbackMultiplier_eq_spec]
  exact max_le (by norm_num) (min_le_left 2 _)


-- ==================== engine helper lemmas ====================

theorem updateTagPreference_favorites (d : DB) (t : String) (w : ℚ) (p n : ℕ) :
    (updateTagPreference d t w p n).favorites = d.favorites := rfl

theorem syncStep_favorites (d : DB) (p : String × ℚ) :
    (syncStep d p).favorites = d.favorites := by
  unfold syncStep
  cases h : getTagPreference d p.1 with
  | none => rfl
  | some v =>
    obtain ⟨w, pos, neg⟩ := v
    by_cases h2 : 0 < pos ∨ 0 < neg
    · simp [h2]
    · simp [h2, updateTagPreference_favorites]

theorem syncStep_feedback (d : DB) (p : String × ℚ) :
    (syncStep d p).feedback = d.feedback := by
  unfold syncStep
  cases h : getTagPreference d p.1 with
  | none => rfl
  | some v =>
    obtain ⟨w, pos, neg⟩ := v
    by_cases h2 : 0 < pos ∨ 0 < neg
    · simp [h2]
    · simp [h2, updateTagPreference]

theorem syncStep_history (d : DB) (p : String × ℚ) :
    (syncStep d p).history = d.history := by
  unfold syncStep
  cases h : getTagPreference d p.1 with
  | none => rfl
  | some v =>
    obtain ⟨w, pos, neg⟩ := v
    by_cases h2 : 0 < pos ∨ 0 < neg
    · simp [h2]
    · simp [h2, updateTagPreference]

theorem foldl_syncStep_favorites (l : List (String × ℚ)) :
    ∀ d : DB, (l.foldl syncStep d).favorites = d.favorites := by
  induction l with
  | nil => intro d; rfl
  | cons p rest ih => intro d; rw [List.foldl_cons, ih, syncStep_favorites]

theorem foldl_syncStep_feedback (l : List (String × ℚ)) :
    ∀ d : DB, (l.foldl syncStep d).feedback = d.feedback := by
  induction l with
  | nil => intro d; rfl
  | cons p rest ih => intro d; rw [List.foldl_cons, ih, syncStep_feedback]

theorem foldl_syncStep_history (l : List (String × ℚ)) :
    ∀ d : DB, (l.foldl syncStep d).history = d.history := by
  induction l with
  | nil => intro d; rfl
  | cons p rest ih => intro d; rw [List.foldl_cons, ih, syncStep_history]

theorem syncTagPreferences_favorites (d : DB) (w : List (String × ℚ)) :
    (syncTagPreferences d w).favorites = d.favorites := by
  cases w with
  | nil => rfl
  | cons p rest => exact foldl_syncStep_favorites (p :: rest) d

theorem syncTagPreferences_feedback (d : DB) (w : List (String × ℚ)) :
    (syncTagPreferences d w).feedback = d.feedback := by
  cases w with
  | nil => rfl
  | cons p rest => exact foldl_syncStep_feedback (p :: rest) d

theorem syncTagPreferences_history (d : DB) (w : List (String × ℚ)) :
    (syncTagPreferences d w).history = d.history := by
  cases w with
  | nil => rfl
  | cons p rest => exact foldl_syncStep_history (p :: rest) d

theorem rebuildProfile_favorites (e : Engine) :
    e.rebuildProfile.db.favorites = e.db.favorites := by
  unfold Engine.rebuildProfile
  cases h1 : e.db.favorites.map (fun p => p.1) with
  | nil => rfl
  | cons gid gids =>
    cases h2 : e.ehdb.getGalleriesByIds (gid :: gids) with
    | nil => simp only [h2]
    | cons g gs => simp only [h2]; simp [syncTagPreferences_favorites]

theorem rebuildProfile_feedback (e : Engine) :
    e.rebuildProfile.db.feedback = e.db.feedback := by
  unfold Engine.rebuildProfile
  cases h1 : e.db.favorites.map (fun p => p.1) with
  | nil => rfl
  | cons gid gids =>
    cases h2 : e.ehdb.getGalleriesByIds (gid :: gids) with
    | nil => simp only [h2]
    | cons g gs => simp only [h2]; simp [syncTagPreferences_feedback]

theorem rebuildProfile_history (e : Engine) :
    e.rebuildProfile.db.history = e.db.history := by
  unfold Engine.rebuildProfile
  cases h1 : e.db.favorites.map (fun p => p.1) with
  | nil => rfl
  | cons gid gids =>
    cases h2 : e.ehdb.getGalleriesByIds (gid :: gids) with
    | nil => simp only [h2]
    | cons g gs => simp only [h2]; simp [syncTagPreferences_history]

theorem rebuildProfile_config (e : Engine) :
    e.rebuildProfile.config = e.config := by
  unfold Engine.rebuildProfile
  cases h1 : e.db.favorites.map (fun p => p.1) with
  | nil => rfl
  | cons gid gids =>
    cases h2 : e.ehdb.getGalleriesByIds (gid :: gids) with
    | nil => simp only [h2]
    | cons g gs => simp only [h2]

theorem rebuildProfile_ready (e : Engine) :
    e.rebuildProfile.profileReady = true := by
  unfold Engine.rebuildProfile
  cases h1 : e.db.favorites.map (fun p => p.1) with
  | nil => rfl
  | cons gid gids =>
    cases h2 : e.ehdb.getGalleriesByIds (gid :: gids) with
    | nil => simp only [h2]
    | cons g gs => simp only [h2]

theorem readyEngine_favorites (e : Engine) :
    (readyEngine e).db.favorites = e.db.favorites := by
  unfold readyEngine
  by_cases h : e.profileReady
  · rw [if_pos h]
  · rw [if_neg h, rebuildProfile_favorites]

theorem readyEngine_feedback (e : Engine) :
    (readyEngine e).db.feedback = e.db.feedback := by
  unfold readyEngine
  by_cases h : e.profileReady
  · rw [if_pos h]
  · rw [if_neg h, rebuildProfile_feedback]

theorem readyEngine_history (e : Engine) :
    (readyEngine e).db.history = e.db.history := by
  unfold readyEngine
  by_cases h : e.profileReady
  · rw [if_pos h]
  · rw [if_neg h, rebuildProfile_history]

theorem readyEngine_config (e : Engine) :
    (readyEngine e).config = e.config := by
  unfold readyEngine
  by_cases h : e.profileReady
  · rw [if_pos h]
  · rw [if_neg h, rebuildProfile_config]

theorem filterAndScore_eq_ready (e : Engine) (now : ℚ) (gals : List Gallery)
    (src : String) :
    e.filterAndScoreGalleries now gals src =
      sortRecsDesc (filterLoop (readyEngine e) now src gals) := rfl

theorem isFavorited_eq_of_favorites {d1 d2 : DB} (h : d1.favorites = d2.favorites)
    (gid : ℤ) : isFavorited d1 gid = isFavorited d2 gid := by
  unfold isFavorited; rw [h]

theorem getFeedback_eq_of_feedback {d1 d2 : DB} (h : d1.feedback = d2.feedback)
    (gid : ℤ) : getFeedback d1 gid = getFeedback d2 gid := by
  unfold getFeedback; rw [h]

theorem isRecommended_eq_of_history {d1 d2 : DB} (h : d1.history = d2.history)
    (gid : ℤ) (w : Option ℤ) (now : ℚ) :
    isRecommended d1 gid w now = isRecommended d2 gid w now := by
  unfold isRecommended; rw [h]

theorem mem_insertRecDesc {a r : Recommendation} {l : List Recommendation}
    (h : a ∈ insertRecDesc r l) : a = r ∨ a ∈ l := by
  induction l with
  | nil => simpa [insertRecDesc] using h
  | cons x xs ih =>
    unfold insertRecDesc at h
    by_cases hc : x.score ≤ r.score
    · rw [if_pos hc] at h
      rcases List.mem_cons.mp h with h1 | h1
      · exact Or.inl h1
      · exact Or.inr h1
    · rw [if_neg hc] at h
      rcases List.mem_cons.mp h with h1 | h1
      · exact Or.inr (List.mem_cons.mpr (Or.inl h1))
      · rcases ih h1 with h2 | h2
        · exact Or.inl h2
        · exact Or.inr (List.mem_cons.mpr (Or.inr h2))

theorem mem_sortRecsDesc {a : Recommendation} {l : List Recommendation}
    (h : a ∈ sortRecsDesc l) : a ∈ l := by
  induction l with
  | nil => simpa [sortRecsDesc] using h
  | cons x xs ih =>
    unfold sortRecsDesc at h
    rcases mem_insertRecDesc h with h1 | h1
    · exact List.mem_cons.mpr (Or.inl h1)
    · exact List.mem_cons.mpr (Or.inr (ih h1))

theorem mem_filterLoop {e : Engine} {now : ℚ} {src : String}
    {gals : List Gallery} {r : Recommendation} (h : r ∈ filterLoop e now src gals) :
    isFavorited e.db r.gallery.gid = false ∧
    getFeedback e.db r.gallery.gid = none ∧
    (src ≠ "manual" →
      isRecommended e.db r.gallery.gid e.config.recommendationExpiryDays now = false) := by
  induction gals with
  | nil => simp [filterLoop] at h
  | cons g rest ih =>
    unfold filterLoop at h
    by_cases h1 : isFavorited e.db g.gid
    · rw [if_pos h1] at h; exact ih h
    · rw [if_neg h1] at h
      by_cases h2 : (getFeedback e.db g.gid).isSome
      · rw [if_pos h2] at h; exact ih h
      · rw [if_neg h2] at h
        by_cases h3 : src ≠ "manual" ∧
            isRecommended e.db g.gid e.config.recommendationExpiryDays now = true
        · rw [if_pos h3] at h; exact ih h
        · rw [if_neg h3] at h
          by_cases h4 : (e.scoreCore g now).1 < e.config.minScoreThreshold
          · rw [if_pos h4] at h; exact ih h
          · rw [if_neg h4] at h
            rcases List.mem_cons.mp h with h5 | h5
            · subst h5
              refine ⟨Bool.not_eq_true _ ▸ (by simpa using h1), ?_, ?_⟩
              · exact Option.not_isSome_iff_eq_none.mp h2
              · intro hsrc
                by_contra hrec
                exact h3 ⟨hsrc, Bool.not_eq_false _ ▸ (by simpa using hrec)⟩
            · exact ih h5

-- ==================== claim theorems ====================

/-- C4: the feedback multiplier is computed iteratively from 1.0, adding
0.10 * 0.9 ^ (i + negative_count) per positive event and subtracting
0.15 * 0.9 ^ (i + positive_count) per negative event, clamped to
[0.0, 2.0]; for one positive and no negative feedback the multiplier is
1.10, so a base weight of 0.5 becomes 0.55 before renormalization. -/
theorem c4_multiplier_formula (pos neg : ℕ) :
    feedbackMultiplier pos neg = specFeedbackMultiplier pos neg ∧
    feedbackMultiplier 1 0 = 11/10 ∧
    (1/2 : ℚ) * feedbackMultiplier 1 0 = 11/20 := by
  refine ⟨feedbackMultiplier_eq_spec pos neg, ?_, ?_⟩
  · rw [feedbackMultiplier]
    norm_num [List.range_succ]
  · rw [feedbackMultiplier]
    norm_num [List.range_succ]

/-- C5: for all counts, the feedback multiplier lies in [0.0, 2.0], is
monotonically non-decreasing in the positive count, and monotonically
non-increasing in the negative count. -/
theorem c5_multiplier_monotone (p n : ℕ) :
    (0 ≤ feedbackMultiplier p n ∧ feedbackMultiplier p n ≤ 2) ∧
    (∀ q : ℕ, p ≤ q → feedbackMultiplier p n ≤ feedbackMultiplier q n) ∧
    (∀ m : ℕ, n ≤ m → feedbackMultiplier p m ≤ feedbackMultiplier p n) := by
  refine ⟨⟨feedbackMultiplier_nonneg p n, feedbackMultiplier_le_two p n⟩, ?_, ?_⟩
  · intro q hq
    rw [feedbackMultiplier_eq_spec, feedbackMultiplier_eq_spec]
    exact clamp_mono (mPre_mono_pos n hq)
  · intro m hm
    rw [feedbackMultiplier_eq_spec, feedbackMultiplier_eq_spec]
    exact clamp_mono (mPre_anti_neg p hm)

/-- Witness for C5 at concrete counts. -/
theorem c5_multiplier_monotone_witness :
    (0 ≤ feedbackMultiplier 3 2 ∧ feedbackMultiplier 3 2 ≤ 2) ∧
    feedbackMultiplier 1 2 ≤ feedbackMultiplier 3 2 ∧
    feedbackMultiplier 3 4 ≤ feedbackMultiplier 3 2 :=
  ⟨(c5_multiplier_monotone 3 2).1,
   (c5_multiplier_monotone 1 2).2.1 3 (by decide),
   (c5_multiplier_monotone 3 2).2.2 4 (by decide)⟩

/-- C9: when the known-gid set contains every gallery id the paginated
source can return, incremental sync returns no new items and fetches
exactly one page. -/
theorem c9_incremental_sync_single_page (pages : String → FavPage)
    (known : List ℤ) (maxPages : ℕ) (hfuel : 0 < maxPages)
    (hknown : ∀ tok : String, ∀ it ∈ (pages tok).items, it.1 ∈ known) :
    fetchNewFavorites pages known maxPages = ([], 1) := by
  obtain ⟨fuel, rfl⟩ : ∃ k, maxPages = k + 1 :=
    ⟨maxPages - 1, (Nat.succ_pred_eq_of_pos hfuel).symm⟩
  unfold fetchNewFavorites fetchNewLoop
  cases hitems : (pages "").items with
  | nil => rfl
  | cons i is =>
    have hfilter : (pages "").items.filter
        (fun it => !(known.contains it.1)) = [] := by
      refine List.filter_eq_nil_iff.mpr ?_
      intro it hit
      simp [hknown "" it hit]
    rw [hitems] at hfilter
    simp only [hitems, hfilter]

/-- Witness for C9: a single-page listing whose only gallery is already
known. -/
theorem c9_incremental_sync_single_page_witness :
    0 < 10 ∧ fetchNewFavorites pagesW [5] 10 = ([], 1) :=
  ⟨by decide,
   c9_incremental_sync_single_page pagesW [5] 10 (by decide)
     (fun tok it h => by
       simp only [pagesW, List.mem_singleton] at h
       simp [h])⟩

-- ==================== tag-weight normalization lemmas ====================

theorem alookup_pos_of_forall {l : List (String × ℚ)}
    (hl : ∀ p ∈ l, 0 < p.2) (s : String) {v : ℚ}
    (h : alookup l s = some v) : 0 < v := by
  induction l with
  | nil => simp [alookup] at h
  | cons p rest ih =>
    rw [alookup] at h
    by_cases hc : p.1 == s
    · rw [if_pos hc] at h
      cases h
      exact hl p (List.mem_cons_self p rest)
    · rw [if_neg hc] at h
      exact ih (fun q hq => hl q (List.mem_cons_of_mem p hq)) h

theorem namespaceWeights_pos : ∀ p ∈ namespaceWeights, 0 < p.2 := by
  intro p hp
  fin_cases hp <;> norm_num

theorem nsWeightOf_pos (t : String) : 0 < nsWeightOf t := by
  unfold nsWeightOf
  cases h : alookup namespaceWeights (namespaceOf t) with
  | none => norm_num
  | some v =>
    simpa using alookup_pos_of_forall namespaceWeights_pos (namespaceOf t) h

theorem maxOrOne_eq_listMax {l : List ℚ} (h : l ≠ []) : maxOrOne l = listMax l := by
  cases l with
  | nil => exact absurd rfl h
  | cons x xs => rfl

theorem vals_map_entry (l : List (String × ℚ)) (f : String × ℚ → ℚ) :
    vals (l.map (fun p => (p.1, f p))) = l.map f := by
  unfold vals
  rw [List.map_map]
  rfl

theorem baseWeightsRaw_vals_pos {favs : List Gallery} (hne : favs ≠ [])
    {v : ℚ} (hv : v ∈ vals (baseWeightsRaw favs)) : 0 < v := by
  simp only [vals, baseWeightsRaw, tagCounter, List.map_map, List.mem_map,
    Function.comp] at hv
  obtain ⟨t, ht, rfl⟩ := hv
  have htmem : t ∈ allTags favs := List.mem_dedup.mp ht
  have hc : 0 < countTag t (allTags favs) := countTag_pos_of_mem htmem
  have hn : 0 < (favs.length : ℚ) := by
    have : 0 < favs.length := List.length_pos.mpr hne
    exact_mod_cast this
  have hns := nsWeightOf_pos t
  have hcq : 0 < (countTag t (allTags favs) : ℚ) := by exact_mod_cast hc
  positivity

theorem allTags_ne_nil {favs : List Gallery} {g : Gallery}
    (hg : g ∈ favs) (ht : g.tags ≠ []) : allTags favs ≠ [] := by
  obtain ⟨t, hmem⟩ := List.exists_mem_of_ne_nil g.tags ht
  exact List.ne_nil_of_mem (mem_allTags_of_mem hg hmem)

theorem baseWeightsRaw_ne_nil {favs : List Gallery} (h : allTags favs ≠ []) :
    baseWeightsRaw favs ≠ [] := by
  unfold baseWeightsRaw tagCounter
  simp only [ne_eq, List.map_eq_nil_iff, List.dedup_eq_nil]
  exact h

theorem vals_ne_nil {l : List (String × ℚ)} (h : l ≠ []) : vals l ≠ [] := by
  unfold vals
  simpa using h

theorem listMax_vals_baseWeightsRaw_pos {favs : List Gallery} (hne : favs ≠ [])
    (h : allTags favs ≠ []) : 0 < listMax (vals (baseWeightsRaw favs)) :=
  baseWeightsRaw_vals_pos hne
    (listMax_mem (vals_ne_nil (baseWeightsRaw_ne_nil h)))

theorem tagWeightsPre_eq (favs : List Gallery) (stats : List (String × ℕ × ℕ)) :
    tagWeightsPre favs stats = (baseWeightsRaw favs).map
      (fun p => (p.1, p.2 / maxOrOne (vals (baseWeightsRaw favs)) *
        feedbackMultiplier (statsPos stats p.1) (statsNeg stats p.1))) := by
  unfold tagWeightsPre baseWeightsNorm
  rw [List.map_map]
  rfl

theorem tagWeightsPre_ne_nil {favs : List Gallery} (h : allTags favs ≠ [])
    (stats : List (String × ℕ × ℕ)) : tagWeightsPre favs stats ≠ [] := by
  rw [tagWeightsPre_eq]
  simpa using baseWeightsRaw_ne_nil h

theorem tagWeightsPre_vals_nonneg {favs : List Gallery} (hne : favs ≠ [])
    {stats : List (String × ℕ × ℕ)} {v : ℚ}
    (hv : v ∈ vals (tagWeightsPre favs stats)) : 0 ≤ v := by
  rw [tagWeightsPre_eq] at hv
  rw [vals_map_entry] at hv
  simp only [List.mem_map] at hv
  obtain ⟨p, hp, rfl⟩ := hv
  have hbase : 0 < p.2 := by
    refine baseWeightsRaw_vals_pos hne ?_
    exact List.mem_map.mpr ⟨p, hp, rfl⟩
  have hM : 0 < maxOrOne (vals (baseWeightsRaw favs)) := by
    have hb : baseWeightsRaw favs ≠ [] := List.ne_nil_of_mem hp
    have hv' : vals (baseWeightsRaw favs) ≠ [] := vals_ne_nil hb
    rw [maxOrOne_eq_listMax hv']
    exact baseWeightsRaw_vals_pos hne (listMax_mem hv')
  have hmul := feedbackMultiplier_nonneg (statsPos stats p.1) (statsNeg stats p.1)
  positivity

theorem vals_map_div_entry (l : List (String × ℚ)) (M : ℚ) :
    vals (l.map (fun p => (p.1, p.2 / M))) = (vals l).map (fun v => v / M) := by
  unfold vals
  rw [List.map_map, List.map_map]
  rfl

/-- C3 (amended): for every favorites list containing at least one tag
occurrence, both weight tables are non-empty; the synced base-weight table
always has maximum exactly 1.0; the feedback-adjusted table has maximum
exactly 1.0 whenever at least one tag of the table has a non-zero feedback
multiplier, and only when feedback clamps every tag multiplier to zero is
the final renormalization skipped, leaving maximum 0. -/
theorem c3_normalization (favs : List Gallery) (stats : List (String × ℕ × ℕ))
    (h : ∃ g ∈ favs, g.tags ≠ []) :
    (computeTagWeightsFromFavorites favs stats ≠ [] ∧
      ((∃ p ∈ baseWeightsRaw favs,
          feedbackMultiplier (statsPos stats p.1) (statsNeg stats p.1) ≠ 0) →
        listMax (vals (computeTagWeightsFromFavorites favs stats)) = 1) ∧
      ((∀ p ∈ baseWeightsRaw favs,
          feedbackMultiplier (statsPos stats p.1) (statsNeg stats p.1) = 0) →
        listMax (vals (computeTagWeightsFromFavorites favs stats)) = 0)) ∧
    (getBaseWeightsForSync favs ≠ [] ∧
      listMax (vals (getBaseWeightsForSync favs)) = 1) := by
  obtain ⟨g, hg, hgt⟩ := h
  have hne : favs ≠ [] := List.ne_nil_of_mem hg
  have hAll : allTags favs ≠ [] := allTags_ne_nil hg hgt
  have hraw : baseWeightsRaw favs ≠ [] := baseWeightsRaw_ne_nil hAll
  have hvraw : vals (baseWeightsRaw favs) ≠ [] := vals_ne_nil hraw
  have hMraw : 0 < listMax (vals (baseWeightsRaw favs)) :=
    listMax_vals_baseWeightsRaw_pos hne hAll
  have hMraw' : 0 < maxOrOne (vals (baseWeightsRaw favs)) := by
    rw [maxOrOne_eq_listMax hvraw]; exact hMraw
  have htw : tagWeightsPre favs stats ≠ [] := tagWeightsPre_ne_nil hAll stats
  have hvtw : vals (tagWeightsPre favs stats) ≠ [] := vals_ne_nil htw
  have hvals_tw : vals (tagWeightsPre favs stats) = (baseWeightsRaw favs).map
      (fun p => p.2 / maxOrOne (vals (baseWeightsRaw favs)) *
        feedbackMultiplier (statsPos stats p.1) (statsNeg stats p.1)) := by
    rw [tagWeightsPre_eq, vals_map_entry]
  cases favs with
  | nil => exact absurd rfl hne
  | cons f fs =>
    constructor
    · show (computeTagWeightsFromFavorites (f :: fs) stats ≠ [] ∧ _)
      simp only [computeTagWeightsFromFavorites]
      refine ⟨?_, ?_, ?_⟩
      · by_cases hpos : 0 < maxOrOne (vals (tagWeightsPre (f :: fs) stats))
        · rw [if_pos hpos]
          simpa using htw
        · rw [if_neg hpos]
          exact htw
      · rintro ⟨p, hp, hmul⟩
        have hppos : 0 < p.2 := by
          refine baseWeightsRaw_vals_pos hne ?_
          exact List.mem_map.mpr ⟨p, hp, rfl⟩
        have hmulpos : 0 <
            feedbackMultiplier (statsPos stats p.1) (statsNeg stats p.1) :=
          lt_of_le_of_ne
            (feedbackMultiplier_nonneg (statsPos stats p.1) (statsNeg stats p.1))
            (Ne.symm hmul)
        have hvmem : p.2 / maxOrOne (vals (baseWeightsRaw (f :: fs))) *
            feedbackMultiplier (statsPos stats p.1) (statsNeg stats p.1) ∈
            vals (tagWeightsPre (f :: fs) stats) := by
          rw [hvals_tw]
          exact List.mem_map.mpr ⟨p, hp, rfl⟩
        have hvpos : 0 < p.2 / maxOrOne (vals (baseWeightsRaw (f :: fs))) *
            feedbackMultiplier (statsPos stats p.1) (statsNeg stats p.1) :=
          mul_pos (div_pos hppos hMraw') hmulpos
        have hMtw : 0 < listMax (vals (tagWeightsPre (f :: fs) stats)) :=
          lt_of_lt_of_le hvpos (le_listMax hvmem)
        have hpos : 0 < maxOrOne (vals (tagWeightsPre (f :: fs) stats)) := by
          rw [maxOrOne_eq_listMax hvtw]
          exact hMtw
        rw [if_pos hpos]
        rw [vals_map_div_entry, maxOrOne_eq_listMax hvtw,
          listMax_map_div hMtw, div_self (ne_of_gt hMtw)]
      · intro hall
        have hzero : ∀ v ∈ vals (tagWeightsPre (f :: fs) stats), v = 0 := by
          intro v hv
          rw [hvals_tw] at hv
          obtain ⟨p, hp, rfl⟩ := List.mem_map.mp hv
          rw [hall p hp, mul_zero]
        have hMtw0 : listMax (vals (tagWeightsPre (f :: fs) stats)) = 0 :=
          hzero _ (listMax_mem hvtw)
        have hnpos : ¬ 0 < maxOrOne (vals (tagWeightsPre (f :: fs) stats)) := by
          rw [maxOrOne_eq_listMax hvtw, hMtw0]
          exact lt_irrefl 0
        rw [if_neg hnpos]
        exact hMtw0
    · show (getBaseWeightsForSync (f :: fs) ≠ [] ∧ _)
      simp only [getBaseWeightsForSync]
      rw [if_pos hMraw']
      constructor
      · simpa using hraw
      · rw [vals_map_div_entry, maxOrOne_eq_listMax hvraw,
          listMax_map_div hMraw, div_self (ne_of_gt hMraw)]

/-- Counterexample to C3 as stated: one favorite with an empty tag list is
a non-empty favorites list, yet the produced tag-weight table is empty. -/
theorem c3_counterexample :
    ([gEmpty] ≠ ([] : List Gallery)) ∧
    computeTagWeightsFromFavorites [gEmpty] [] = [] ∧
    getBaseWeightsForSync [gEmpty] = [] := by
  refine ⟨by simp, ?_, ?_⟩
  · simp [computeTagWeightsFromFavorites, tagWeightsPre, baseWeightsNorm,
      baseWeightsRaw, tagCounter, allTags, gEmpty, vals, maxOrOne]
  · simp [getBaseWeightsForSync, baseWeightsRaw, tagCounter, allTags, gEmpty,
      vals, maxOrOne]

theorem baseWeightsRaw_g6 : baseWeightsRaw [g6] =
    [("female:elf", 6/5), ("language:japanese", 11/10)] := by
  have h0 : baseWeightsRaw [g6] = (allTags [g6]).dedup.map
      (fun s => (s, (countTag s (allTags [g6]) : ℚ) /
        (([g6] : List Gallery).length : ℚ) * nsWeightOf s)) := by
    unfold baseWeightsRaw tagCounter
    rw [List.map_map]
    rfl
  have h2 : (allTags [g6]).dedup = ["female:elf", "language:japanese"] := by decide
  have hns1 : nsWeightOf "female:elf" = 6/5 := rfl
  have hns2 : nsWeightOf "language:japanese" = 11/10 := rfl
  have hc1 : countTag "female:elf" (allTags [g6]) = 1 := by decide
  have hc2 : countTag "language:japanese" (allTags [g6]) = 1 := by decide
  rw [h0, h2, List.map_cons, List.map_cons, List.map_nil, hc1, hc2, hns1, hns2]
  norm_num

/-- Witness for C3 (amended) at the scenario favorites list, whose tags
all carry the no-feedback multiplier 1, so the maximum is 1. -/
theorem c3_normalization_witness :
    computeTagWeightsFromFavorites [g6] [] ≠ [] ∧
    listMax (vals (computeTagWeightsFromFavorites [g6] [])) = 1 ∧
    getBaseWeightsForSync [g6] ≠ [] ∧
    listMax (vals (getBaseWeightsForSync [g6])) = 1 := by
  have h := c3_normalization [g6] [] ⟨g6, List.mem_singleton.mpr rfl, by simp [g6]⟩
  refine ⟨h.1.1, h.1.2.1 ⟨("female:elf", 6/5), ?_, ?_⟩, h.2.1, h.2.2⟩
  · rw [baseWeightsRaw_g6]
    exact List.mem_cons_self _ _
  · have hm : feedbackMultiplier (statsPos [] "female:elf")
        (statsNeg [] "female:elf") = 1 := rfl
    rw [hm]
    norm_num

theorem tagWeightsPre_g6 : tagWeightsPre [g6] [] =
    [("female:elf", 1), ("language:japanese", 11/12)] := by
  rw [tagWeightsPre_eq, baseWeightsRaw_g6]
  have hm : feedbackMultiplier 0 0 = 1 := rfl
  simp only [List.map_cons, List.map_nil, vals, maxOrOne, listMax, statsPos,
    statsNeg, alookup, Option.getD, hm]
  norm_num [max_eq_left]

theorem scenario_g6 : computeTagWeightsFromFavorites [g6] [] =
    [("female:elf", 1), ("language:japanese", 11/12)] := by
  show (if 0 < maxOrOne (vals (tagWeightsPre [g6] [])) then
      (tagWeightsPre [g6] []).map
        (fun p => (p.1, p.2 / maxOrOne (vals (tagWeightsPre [g6] []))))
    else tagWeightsPre [g6] []) = _
  rw [tagWeightsPre_g6]
  norm_num [vals, maxOrOne, listMax]

/-- C6: pre-normalization base weights are term frequency times the
namespace multiplier, with the namespace the substring before the first
colon, default namespace other at 0.8, and the multipliers 1.2 for
female/male, 1.1 for language, 0.9 for artist/group, 0.7 for cosplayer,
0.5 for reclass; and in the spec scenario the tag female:elf gets the
maximal normalized weight 1.0. -/
theorem c6_base_weights :
    (∀ favs : List Gallery, favs ≠ [] → ∀ (t : String) (w : ℚ),
      ((t, w) ∈ baseWeightsRaw favs ↔
        t ∈ allTags favs ∧
        w = (countTag t (allTags favs) : ℚ) / (favs.length : ℚ) * nsWeightOf t)) ∧
    (∀ t : String, t.toList.contains (Char.ofNat 58) = false → nsWeightOf t = 4/5) ∧
    (nsWeightOf "female:elf" = 6/5 ∧ nsWeightOf "male:bob" = 6/5 ∧
     nsWeightOf "language:japanese" = 11/10 ∧ nsWeightOf "artist:ann" = 9/10 ∧
     nsWeightOf "group:circle" = 9/10 ∧ nsWeightOf "cosplayer:cc" = 7/10 ∧
     nsWeightOf "reclass:doujinshi" = 1/2) ∧
    (alookup (computeTagWeightsFromFavorites [g6] []) "female:elf" = some 1 ∧
     listMax (vals (computeTagWeightsFromFavorites [g6] [])) = 1) := by
  refine ⟨?_, ?_, ⟨rfl, rfl, rfl, rfl, rfl, rfl, rfl⟩, ?_, ?_⟩
  · intro favs _ t w
    have hbw : baseWeightsRaw favs = (allTags favs).dedup.map
        (fun s => (s, (countTag s (allTags favs) : ℚ) / (favs.length : ℚ) * nsWeightOf s)) := by
      unfold baseWeightsRaw tagCounter
      rw [List.map_map]
      rfl
    rw [hbw]
    constructor
    · intro hmem
      obtain ⟨s, hs, heq⟩ := List.mem_map.mp hmem
      rw [Prod.mk.injEq] at heq
      obtain ⟨rfl, rfl⟩ := heq
      exact ⟨List.mem_dedup.mp hs, rfl⟩
    · rintro ⟨hmem, rfl⟩
      exact List.mem_map.mpr ⟨t, List.mem_dedup.mpr hmem, rfl⟩
  · intro t ht
    unfold nsWeightOf namespaceOf
    rw [if_neg (by rw [ht]; simp)]
    rfl
  · rw [scenario_g6]
    rfl
  · rw [scenario_g6]
    simp only [vals, List.map_cons, List.map_nil, listMax, List.foldl_cons,
      List.foldl_nil]
    rw [max_eq_left (by norm_num)]

/-- Witness for C6 at the scenario gallery and a namespace-less tag. -/
theorem c6_base_weights_witness :
    ([g6] ≠ ([] : List Gallery)) ∧
    (("female:elf", (6 : ℚ)/5) ∈ baseWeightsRaw [g6] ↔
      "female:elf" ∈ allTags [g6] ∧
      (6 : ℚ)/5 = (countTag "female:elf" (allTags [g6]) : ℚ) /
        (([g6] : List Gallery).length : ℚ) * nsWeightOf "female:elf") ∧
    "plain".toList.contains (Char.ofNat 58) = false ∧
    nsWeightOf "plain" = 4/5 :=
  ⟨by simp,
   c6_base_weights.1 [g6] (by simp) "female:elf" (6/5),
   by decide,
   c6_base_weights.2.1 "plain" (by decide)⟩

-- ==================== filtering invariant (C1, C7, C10) ====================

theorem mem_filterAndScore {e : Engine} {now : ℚ} {src : String}
    {gals : List Gallery} {r : Recommendation}
    (h : r ∈ e.filterAndScoreGalleries now gals src) :
    isFavorited e.db r.gallery.gid = false ∧
    getFeedback e.db r.gallery.gid = none ∧
    (src ≠ "manual" →
      isRecommended e.db r.gallery.gid e.config.recommendationExpiryDays now = false) := by
  rw [filterAndScore_eq_ready] at h
  have h2 := mem_filterLoop (mem_sortRecsDesc h)
  rw [isFavorited_eq_of_favorites (readyEngine_favorites e),
    getFeedback_eq_of_feedback (readyEngine_feedback e),
    readyEngine_config] at h2
  refine ⟨h2.1, h2.2.1, fun hsrc => ?_⟩
  have h3 := h2.2.2 hsrc
  rw [isRecommended_eq_of_history (readyEngine_history e)] at h3
  exact h3

theorem notMem_gids_filterAndScore {e : Engine} {now : ℚ} {src : String}
    {gals : List Gallery} {gid : ℤ}
    (h : isFavorited e.db gid = true ∨ (getFeedback e.db gid).isSome = true) :
    gid ∉ (e.filterAndScoreGalleries now gals src).map (fun r => r.gallery.gid) := by
  intro hmem
  obtain ⟨r, hr, hgid⟩ := List.mem_map.mp hmem
  have h2 := mem_filterAndScore hr
  rw [hgid] at h2
  rcases h with h | h
  · rw [h2.1] at h
    cases h
  · rw [h2.2.1] at h
    simp at h

/-- C1: no gallery whose id is favorited or has a feedback record appears
in the output of any of the three recommend modes, regardless of score. -/
theorem c1_filter_invariant (e : Engine) (now : ℚ) (ts : ℤ)
    (lim cnt limS : ℕ) (mr : ℚ) (seed gid : ℤ)
    (h : isFavorited e.db gid = true ∨ (getFeedback e.db gid).isSome = true) :
    gid ∉ (e.recommendNewGalleries now ts lim).map (fun r => r.gallery.gid) ∧
    gid ∉ (e.recommendFromPool now cnt mr).map (fun r => r.gallery.gid) ∧
    gid ∉ (e.recommendSimilar now seed limS).map (fun r => r.gallery.gid) := by
  refine ⟨notMem_gids_filterAndScore h, notMem_gids_filterAndScore h, ?_⟩
  unfold Engine.recommendSimilar
  cases hbase : e.ehdb.getGallery seed with
  | none => simp
  | some base =>
    intro hmem
    obtain ⟨r, hr, hgid⟩ := List.mem_map.mp hmem
    exact notMem_gids_filterAndScore h
      (List.mem_map.mpr ⟨r, List.mem_of_mem_take hr, hgid⟩)

/-- Witness for C1: gallery 7 is favorited in dbW1 and never recommended. -/
theorem c1_filter_invariant_witness :
    isFavorited eW1.db 7 = true ∧
    (7 : ℤ) ∉ (eW1.recommendNewGalleries 0 0 10).map (fun r => r.gallery.gid) ∧
    (7 : ℤ) ∉ (eW1.recommendFromPool 0 10 3).map (fun r => r.gallery.gid) ∧
    (7 : ℤ) ∉ (eW1.recommendSimilar 0 9 10).map (fun r => r.gallery.gid) := by
  have h := c1_filter_invariant eW1 0 0 10 10 10 3 9 7 (Or.inl (by decide))
  exact ⟨by decide, h.1, h.2.1, h.2.2⟩

theorem isRecommended_none_true {db : DB} {gid : ℤ} {t now : ℚ}
    (h : (gid, t) ∈ db.history) : isRecommended db gid none now = true := by
  unfold isRecommended
  refine List.any_eq_true.mpr ⟨(gid, t), h, ?_⟩
  simp

/-- C10: without a configured expiry window, any gallery with a
recommendation-history record is suppressed by both non-manual modes
forever, no matter how old the record is. -/
theorem c10_permanent_suppression (e : Engine) (now : ℚ) (gid : ℤ) (t : ℚ)
    (ts : ℤ) (lim cnt : ℕ) (mr : ℚ)
    (hcfg : e.config.recommendationExpiryDays = none)
    (hh : (gid, t) ∈ e.db.history) :
    gid ∉ (e.recommendNewGalleries now ts lim).map (fun r => r.gallery.gid) ∧
    gid ∉ (e.recommendFromPool now cnt mr).map (fun r => r.gallery.gid) := by
  constructor
  · intro hmem
    obtain ⟨r, hr, hgid⟩ := List.mem_map.mp hmem
    have h2 := mem_filterAndScore hr
    rw [hgid] at h2
    have h3 := h2.2.2 (by decide)
    rw [hcfg, isRecommended_none_true hh] at h3
    cases h3
  · intro hmem
    obtain ⟨r, hr, hgid⟩ := List.mem_map.mp hmem
    have h2 := mem_filterAndScore hr
    rw [hgid] at h2
    have h3 := h2.2.2 (by decide)
    rw [hcfg, isRecommended_none_true hh] at h3
    cases h3

/-- Witness for C10: gallery 3 was recommended at day 0 and stays excluded
at day 1000 with no expiry configured. -/
theorem c10_permanent_suppression_witness :
    eW10.config.recommendationExpiryDays = none ∧
    ((3 : ℤ), (0 : ℚ)) ∈ eW10.db.history ∧
    (3 : ℤ) ∉ (eW10.recommendNewGalleries 1000 0 10).map (fun r => r.gallery.gid) ∧
    (3 : ℤ) ∉ (eW10.recommendFromPool 1000 10 3).map (fun r => r.gallery.gid) := by
  have h := c10_permanent_suppression eW10 1000 3 0 0 10 10 3 rfl
    (List.mem_singleton.mpr rfl)
  exact ⟨rfl, List.mem_singleton.mpr rfl, h.1, h.2⟩

-- ==================== expiry window (C7) ====================

theorem isRecommended_some_true {db : DB} {gid : ℤ} {T now : ℚ} {W : ℤ}
    (h : (gid, T) ∈ db.history) (hnow : now < T + W) :
    isRecommended db gid (some W) now = true := by
  unfold isRecommended
  refine List.any_eq_true.mpr ⟨(gid, T), h, ?_⟩
  simp only [beq_self_eq_true, Bool.true_and, decide_eq_true_eq]
  exact sub_lt_iff_lt_add.mpr hnow

theorem isRecommended_some_false {db : DB} {gid : ℤ} {now : ℚ} {W : ℤ}
    (h : ∀ t : ℚ, (gid, t) ∈ db.history → t + (W : ℚ) ≤ now) :
    isRecommended db gid (some W) now = false := by
  unfold isRecommended
  rw [List.any_eq_false]
  intro p hp
  by_cases hgid : p.1 = gid
  · have hmem : (gid, p.2) ∈ db.history := by
      rw [← hgid]
      exact hp
    have hle := h p.2 hmem
    simp only [hgid, beq_self_eq_true, Bool.true_and, Bool.not_eq_true,
      decide_eq_false_iff_not, not_lt]
    linarith
  · simp [hgid]

theorem rebuildProfile_profiles_withHistory (e : Engine) (h : List (ℤ × ℚ)) :
    (withHistoryE e h).rebuildProfile.tagA = e.rebuildProfile.tagA ∧
    (withHistoryE e h).rebuildProfile.upA = e.rebuildProfile.upA ∧
    (withHistoryE e h).rebuildProfile.cs = e.rebuildProfile.cs := by
  obtain ⟨db, ehdb, cfg, tagA, upA, cs, fit, rd⟩ := e
  obtain ⟨fav, fb, hist, prefs⟩ := db
  simp only [withHistoryE, Engine.rebuildProfile]
  cases h1 : fav.map (fun p => p.1) with
  | nil => exact ⟨rfl, rfl, rfl⟩
  | cons gid gids =>
    cases h2 : ehdb.getGalleriesByIds (gid :: gids) with
    | nil => simp [h2]
    | cons g gs => simp [h2, getAllTagFeedbackStats]

theorem readyEngine_tagA_withHistory (e : Engine) (h2 : List (ℤ × ℚ)) :
    (readyEngine (withHistoryE e h2)).tagA = (readyEngine e).tagA := by
  unfold readyEngine
  have hr : (withHistoryE e h2).profileReady = e.profileReady := rfl
  rw [hr]
  by_cases h : e.profileReady
  · rw [if_pos h, if_pos h]
    rfl
  · rw [if_neg h, if_neg h]
    exact (rebuildProfile_profiles_withHistory e h2).1

theorem readyEngine_upA_withHistory (e : Engine) (h2 : List (ℤ × ℚ)) :
    (readyEngine (withHistoryE e h2)).upA = (readyEngine e).upA := by
  unfold readyEngine
  have hr : (withHistoryE e h2).profileReady = e.profileReady := rfl
  rw [hr]
  by_cases h : e.profileReady
  · rw [if_pos h, if_pos h]
    rfl
  · rw [if_neg h, if_neg h]
    exact (rebuildProfile_profiles_withHistory e h2).2.1

theorem readyEngine_cs_withHistory (e : Engine) (h2 : List (ℤ × ℚ)) :
    (readyEngine (withHistoryE e h2)).cs = (readyEngine e).cs := by
  unfold readyEngine
  have hr : (withHistoryE e h2).profileReady = e.profileReady := rfl
  rw [hr]
  by_cases h : e.profileReady
  · rw [if_pos h, if_pos h]
    rfl
  · rw [if_neg h, if_neg h]
    exact (rebuildProfile_profiles_withHistory e h2).2.2

theorem scoreCore_congr {e1 e2 : Engine} (htagA : e1.tagA = e2.tagA)
    (hupA : e1.upA = e2.upA) (hcs : e1.cs = e2.cs) (hcfg : e1.config = e2.config)
    (g : Gallery) (now : ℚ) : e1.scoreCore g now = e2.scoreCore g now := by
  unfold Engine.scoreCore
  rw [htagA, hupA, hcs, hcfg]

theorem filterLoop_congr_manual {e1 e2 : Engine} (now : ℚ)
    (hfav : e1.db.favorites = e2.db.favorites)
    (hfb : e1.db.feedback = e2.db.feedback)
    (hcfg : e1.config = e2.config)
    (htagA : e1.tagA = e2.tagA) (hupA : e1.upA = e2.upA) (hcs : e1.cs = e2.cs) :
    ∀ gals : List Gallery,
      filterLoop e1 now "manual" gals = filterLoop e2 now "manual" gals := by
  intro gals
  induction gals with
  | nil => rfl
  | cons g rest ih =>
    unfold filterLoop
    rw [isFavorited_eq_of_favorites hfav, getFeedback_eq_of_feedback hfb,
      scoreCore_congr htagA hupA hcs hcfg, hcfg, ih]
    have hman1 : ¬("manual" ≠ "manual" ∧
        isRecommended e1.db g.gid e2.config.recommendationExpiryDays now = true) := by
      simp
    have hman2 : ¬("manual" ≠ "manual" ∧
        isRecommended e2.db g.gid e2.config.recommendationExpiryDays now = true) := by
      simp
    rw [if_neg hman1, if_neg hman2]

theorem filterAndScore_manual_withHistory (e : Engine) (now : ℚ)
    (gals : List Gallery) (h2 : List (ℤ × ℚ)) :
    (withHistoryE e h2).filterAndScoreGalleries now gals "manual" =
      e.filterAndScoreGalleries now gals "manual" := by
  rw [filterAndScore_eq_ready, filterAndScore_eq_ready]
  have hfav : (readyEngine (withHistoryE e h2)).db.favorites =
      (readyEngine e).db.favorites := by
    rw [readyEngine_favorites, readyEngine_favorites]
    rfl
  have hfb : (readyEngine (withHistoryE e h2)).db.feedback =
      (readyEngine e).db.feedback := by
    rw [readyEngine_feedback, readyEngine_feedback]
    rfl
  have hcfg : (readyEngine (withHistoryE e h2)).config = (readyEngine e).config := by
    rw [readyEngine_config, readyEngine_config]
    rfl
  rw [filterLoop_congr_manual now hfav hfb hcfg
    (readyEngine_tagA_withHistory e h2) (readyEngine_upA_withHistory e h2)
    (readyEngine_cs_withHistory e h2) gals]

/-- C7: with expiry window W configured, a gallery recommended at time T is
excluded from the non-manual modes at any query time before T + W; once
every history record of the gallery is at least W days old the expiry
check no longer excludes it; and manual similar-item queries are
independent of the recommendation history entirely. -/
theorem c7_expiry (e : Engine) (now1 now2 T : ℚ) (W : ℤ) (gid ts seed : ℤ)
    (lim cnt limS : ℕ) (mr : ℚ) (h2 : List (ℤ × ℚ)) :
    (e.config.recommendationExpiryDays = some W → (gid, T) ∈ e.db.history →
      now1 < T + (W : ℚ) →
      gid ∉ (e.recommendNewGalleries now1 ts lim).map (fun r => r.gallery.gid) ∧
      gid ∉ (e.recommendFromPool now1 cnt mr).map (fun r => r.gallery.gid)) ∧
    ((∀ t : ℚ, (gid, t) ∈ e.db.history → t + (W : ℚ) ≤ now2) →
      isRecommended e.db gid (some W) now2 = false) ∧
    e.recommendSimilar now1 seed limS =
      (withHistoryE e h2).recommendSimilar now1 seed limS := by
  refine ⟨?_, isRecommended_some_false, ?_⟩
  · intro hcfg hh hnow
    constructor
    · intro hmem
      obtain ⟨r, hr, hgid⟩ := List.mem_map.mp hmem
      have hc := mem_filterAndScore hr
      rw [hgid] at hc
      have h3 := hc.2.2 (by decide)
      rw [hcfg, isRecommended_some_true hh hnow] at h3
      cases h3
    · intro hmem
      obtain ⟨r, hr, hgid⟩ := List.mem_map.mp hmem
      have hc := mem_filterAndScore hr
      rw [hgid] at hc
      have h3 := hc.2.2 (by decide)
      rw [hcfg, isRecommended_some_true hh hnow] at h3
      cases h3
  · unfold Engine.recommendSimilar
    have hehdb : (withHistoryE e h2).ehdb = e.ehdb := rfl
    rw [hehdb]
    cases hbase : e.ehdb.getGallery seed with
    | none => rfl
    | some base => simp only [filterAndScore_manual_withHistory]

/-- Witness for C7: gallery 3, recommended at day 0 with a 7-day window,
is excluded at day 5, eligible again at day 12, and the manual mode
ignores the history. -/
theorem c7_expiry_witness :
    eW7.config.recommendationExpiryDays = some 7 ∧
    ((3 : ℤ), (0 : ℚ)) ∈ eW7.db.history ∧
    (5 : ℚ) < 0 + ((7 : ℤ) : ℚ) ∧
    (3 : ℤ) ∉ (eW7.recommendNewGalleries 5 0 10).map (fun r => r.gallery.gid) ∧
    (3 : ℤ) ∉ (eW7.recommendFromPool 5 10 3).map (fun r => r.gallery.gid) ∧
    isRecommended eW7.db 3 (some 7) 12 = false ∧
    eW7.recommendSimilar 5 9 10 = (withHistoryE eW7 []).recommendSimilar 5 9 10 := by
  have h := c7_expiry eW7 5 12 0 7 3 0 9 10 10 10 3 []
  have ha := h.1 rfl (List.mem_singleton.mpr rfl) (by norm_num)
  refine ⟨rfl, List.mem_singleton.mpr rfl, by norm_num, ha.1, ha.2, ?_, h.2.2⟩
  refine h.2.1 ?_
  intro t ht
  have ht2 : ((3 : ℤ), t) ∈ [((3 : ℤ), (0 : ℚ))] := ht
  rw [List.mem_singleton, Prod.mk.injEq] at ht2
  rw [ht2.2]
  norm_num

-- ==================== unresolvable feedback (C2) ====================

theorem getFeedback_addFeedback (db : DB) (gid rating : ℤ) (src : String) :
    getFeedback (addFeedback db gid rating src) gid = some rating := by
  unfold getFeedback addFeedback
  rw [show (({ db with feedback := upsert db.feedback gid (rating, src) } : DB).feedback)
      = upsert db.feedback gid (rating, src) from rfl]
  rw [alookup_upsert_same]
  rfl

/-- C2 (amended): when the gallery is unresolvable in the content store,
handle_feedback persists the feedback record and returns early: the
learner step is skipped (tag preferences unchanged) and the profile
rebuild is also skipped (all analyzer states and the initialized flag
unchanged); the embedding is total, so no exception escapes. -/
theorem c2_unresolvable_feedback (e : Engine) (gid rating : ℤ) (src : String)
    (hnone : e.ehdb.getGallery gid = none) :
    getFeedback (e.handleFeedback gid rating src).db gid = some rating ∧
    (e.handleFeedback gid rating src).db.prefs = e.db.prefs ∧
    (e.handleFeedback gid rating src).tagA = e.tagA ∧
    (e.handleFeedback gid rating src).upA = e.upA ∧
    (e.handleFeedback gid rating src).cs = e.cs ∧
    (e.handleFeedback gid rating src).profileReady = e.profileReady := by
  unfold Engine.handleFeedback
  simp only [hnone]
  refine ⟨getFeedback_addFeedback e.db gid rating src, ?_, ?_, ?_, ?_, ?_⟩ <;>
    first
    | rfl
    | trivial

/-- Counterexample to C2 as stated: with gallery 42 unresolvable, the
feedback is persisted, but the result of handle_feedback is not the
profile-rebuilt state the claim asserts — the initialized flag stays
false, while initialize always sets it to true. -/
theorem c2_counterexample :
    eC2.ehdb.getGallery 42 = none ∧
    getFeedback (eC2.handleFeedback 42 (-1) "new").db 42 = some (-1) ∧
    (eC2.handleFeedback 42 (-1) "new").profileReady = false ∧
    (Engine.rebuildProfile
      { eC2 with db := addFeedback eC2.db 42 (-1) "new" }).profileReady = true ∧
    eC2.handleFeedback 42 (-1) "new" ≠
      Engine.rebuildProfile { eC2 with db := addFeedback eC2.db 42 (-1) "new" } := by
  refine ⟨rfl, ?_, rfl, rebuildProfile_ready _, ?_⟩
  · exact getFeedback_addFeedback eC2.db 42 (-1) "new"
  · intro hcontra
    have hflag := congrArg Engine.profileReady hcontra
    rw [rebuildProfile_ready] at hflag
    have hfalse : (eC2.handleFeedback 42 (-1) "new").profileReady = false := rfl
    rw [hfalse] at hflag
    cases hflag

/-- Witness for C2 (amended) at the unresolvable gallery 42. -/
theorem c2_unresolvable_feedback_witness :
    eC2.ehdb.getGallery 42 = none ∧
    getFeedback (eC2.handleFeedback 42 (-1) "new").db 42 = some (-1) ∧
    (eC2.handleFeedback 42 (-1) "new").db.prefs = eC2.db.prefs ∧
    (eC2.handleFeedback 42 (-1) "new").tagA = eC2.tagA ∧
    (eC2.handleFeedback 42 (-1) "new").upA = eC2.upA ∧
    (eC2.handleFeedback 42 (-1) "new").cs = eC2.cs ∧
    (eC2.handleFeedback 42 (-1) "new").profileReady = eC2.profileReady := by
  have h := c2_unresolvable_feedback eC2 42 (-1) "new" rfl
  exact ⟨rfl, h.1, h.2.1, h.2.2.1, h.2.2.2.1, h.2.2.2.2.1, h.2.2.2.2.2⟩

-- ==================== score determinism (C8) ====================

theorem readyEngine_ready (e : Engine) : (readyEngine e).profileReady = true := by
  unfold readyEngine
  by_cases h : e.profileReady
  · rw [if_pos h]
    exact h
  · rw [if_neg h]
    exact rebuildProfile_ready e

theorem readyEngine_idem (e : Engine) : readyEngine (readyEngine e) = readyEngine e := by
  by_cases h : e.profileReady
  · have h1 : readyEngine e = e := by
      unfold readyEngine
      rw [if_pos h]
    rw [h1]
    exact h1
  · have h1 : readyEngine e = e.rebuildProfile := by
      unfold readyEngine
      rw [if_neg h]
    rw [h1]
    unfold readyEngine
    rw [if_pos (rebuildProfile_ready e)]

/-- C8 (amended): compute_recommendation_score is deterministic in
(gallery, profiles, current clock reading): threading the engine returned
by a first call into a second call at the same clock reading yields an
identical (score, details) pair and leaves the engine unchanged.  The
recency component reads the clock, so the output is not a function of the
gallery and profiles alone (see the counterexample). -/
theorem c8_deterministic (e : Engine) (g : Gallery) (now : ℚ) :
    ((e.computeRecommendationScore g now).1.computeRecommendationScore g now).2 =
      (e.computeRecommendationScore g now).2 ∧
    ((e.computeRecommendationScore g now).1.computeRecommendationScore g now).1 =
      (e.computeRecommendationScore g now).1 := by
  have hcrs : ∀ e' : Engine, e'.computeRecommendationScore g now =
      (readyEngine e', (readyEngine e').scoreCore g now) := fun _ => rfl
  constructor
  · rw [show (e.computeRecommendationScore g now).1 = readyEngine e from rfl,
      hcrs (readyEngine e), hcrs e, readyEngine_idem]
  · rw [show (e.computeRecommendationScore g now).1 = readyEngine e from rfl,
      hcrs (readyEngine e)]
    exact readyEngine_idem e

theorem recency_gC8_50 : computeRecencyScore gC8 50 = 1 := by
  unfold computeRecencyScore gC8
  simp only []
  rw [show ((50 : ℚ) - 100) = ((-50 : ℤ) : ℚ) by norm_num, Int.floor_intCast]
  rw [if_pos (by norm_num : (-50 : ℤ) < 0)]

theorem recency_gC8_200 : computeRecencyScore gC8 200 = Real.exp (-(1/5)) := by
  unfold computeRecencyScore gC8
  simp only []
  rw [show ((200 : ℚ) - 100) = ((100 : ℤ) : ℚ) by norm_num, Int.floor_intCast]
  rw [if_neg (by norm_num : ¬((100 : ℤ) < 0))]
  rw [show (-(1/500) * ((100 : ℤ) : ℝ)) = -(1/5) by norm_num]
  have hlt : Real.exp (-(1/5)) < 1 := by
    rw [← Real.exp_zero]
    exact Real.exp_lt_exp.mpr (by norm_num)
  have hge : (1/5 : ℝ) ≤ Real.exp (-(1/5)) := by
    have := Real.add_one_le_exp (-(1/5 : ℝ))
    linarith
  rw [min_eq_right (le_of_lt hlt), max_eq_right hge]

theorem quality_gC8 : computeQualityScore eC8.cs gC8 = 1/2 := by
  unfold computeQualityScore
  have hcs : eC8.cs = defaultCS := rfl
  rw [hcs]
  unfold defaultCS
  simp only []
  rw [if_neg (lt_irrefl (0 : ℝ))]
  rw [if_pos (by norm_num [gC8] :
    (0 : ℚ) ≤ ((gC8.filecount : ℚ)) ∧ ((gC8.filecount : ℚ)) ≤ 10000)]
  norm_num [gC8]

theorem content_gC8 : computeContentScore eC8.cs gC8 = 2/5 := by
  unfold computeContentScore
  have hcs : eC8.cs = defaultCS := rfl
  rw [hcs]
  norm_num [defaultCS, gC8, alookup]

/-- Counterexample to C8 as stated: the same engine state and the same
gallery scored at two different clock readings (day 50 and day 200, with
the gallery posted at day 100) yield different total scores, because the
recency component reads the clock. -/
theorem c8_counterexample : (eC8.scoreCore gC8 50).1 ≠ (eC8.scoreCore gC8 200).1 := by
  have h1 : (eC8.scoreCore gC8 50).1 =
      computeTagSimilarity eC8.tagA gC8.tags * eC8.config.tagWeight
        + (computeUploaderScore eC8.upA (gC8.uploader.getD "") : ℝ) * eC8.config.uploaderWeight
        + computeQualityScore eC8.cs gC8 * eC8.config.qualityWeight
        + (computeContentScore eC8.cs gC8 : ℝ) * eC8.config.contentWeight
        + computeRecencyScore gC8 50 * eC8.config.recencyWeight := rfl
  have h2 : (eC8.scoreCore gC8 200).1 =
      computeTagSimilarity eC8.tagA gC8.tags * eC8.config.tagWeight
        + (computeUploaderScore eC8.upA (gC8.uploader.getD "") : ℝ) * eC8.config.uploaderWeight
        + computeQualityScore eC8.cs gC8 * eC8.config.qualityWeight
        + (computeContentScore eC8.cs gC8 : ℝ) * eC8.config.contentWeight
        + computeRecencyScore gC8 200 * eC8.config.recencyWeight := rfl
  have htag : computeTagSimilarity eC8.tagA gC8.tags = 0 := rfl
  have hupl : computeUploaderScore eC8.upA (gC8.uploader.getD "") = 0 := rfl
  have hcw : eC8.config.tagWeight = 2/5 := rfl
  have hcu : eC8.config.uploaderWeight = 1/5 := rfl
  have hcq : eC8.config.qualityWeight = 1/5 := rfl
  have hcc : eC8.config.contentWeight = 3/20 := rfl
  have hcr : eC8.config.recencyWeight = 1/20 := rfl
  rw [h1, h2, htag, hupl, quality_gC8, content_gC8, recency_gC8_50, recency_gC8_200,
    hcw, hcu, hcq, hcc, hcr]
  have hlt : Real.exp (-(1/5)) < 1 := by
    rw [← Real.exp_zero]
    exact Real.exp_lt_exp.mpr (by norm_num)
  intro heq
  push_cast at heq
  nlinarith [heq, hlt]
